import Mathlib

/-!
A verification development for the nanowrimo API client core (the crate's
codec layer, resource model, error classification, session state machine and
retry dispatcher), as a shallow embedding in Lean.

Conventions of the embedding:
* JSON values are modelled by the inductive `Json`; numbers are integers,
  since no property below depends on fractional values.
* serde decoding is modelled by functions into `DecOutcome`, which records
  success, a decode error carrying the field path tracked by
  serde_path_to_error, or a process abort raised by `expect` inside a custom
  deserializer.
* Machine integers are `Nat`/`Int` with explicit range checks where the
  source's types impose them.
* The external chrono date parser is abstracted: a date field decodes from
  any JSON string and keeps the raw string.  Concrete inputs below use
  genuinely well-formed date strings, so every success statement proved of
  the model is also true of the source.
* Network transport outcomes are parameters of the session/retry functions:
  the environment supplies the result of each attempted request.
-/

namespace Nano

/-- A parsed JSON value, the wire format handled by serde_json in the source.
Numbers are modelled as integers. -/
inductive Json where
| null
| bool (b : Bool)
| num (n : Int)
| str (s : String)
| arr (items : List Json)
| obj (entries : List (String × Json))

/-- Lookup among a JSON object's members; first binding wins. -/
def jlookup : List (String × Json) → String → Option Json
| [], _ => none
| (k, v) :: rest, key => if k = key then some v else jlookup rest key

/-- Outcome of a serde decode in the source: success, a decode error carrying
the traversed field path and a message, or a process abort raised by
`expect` inside a custom deserializer. -/
inductive DecOutcome (α : Type) where
| ok (a : α)
| fail (path : String) (msg : String)
| panics (msg : String)

def DecOutcome.bind : DecOutcome α → (α → DecOutcome β) → DecOutcome β
| .ok a, f => f a
| .fail p m, _ => .fail p m
| .panics m, _ => .panics m

instance : Monad DecOutcome where
  pure := DecOutcome.ok
  bind := DecOutcome.bind

/-- Extend a serde_path_to_error path with a field segment. -/
def joinField (p : String) (k : String) : String :=
  if p = "" then k else p ++ "." ++ k

/-- Extend a serde_path_to_error path with an array index segment. -/
def joinIndex (p : String) (i : Nat) : String :=
  p ++ "[" ++ toString i ++ "]"

/-- Render a path the way serde_path_to_error displays it: the root is ".". -/
def renderPath (p : String) : String :=
  if p = "" then "." else p

/-- A decode failure at path `p` (rendered) with message `msg`. -/
def dfail (p msg : String) : DecOutcome α := .fail (renderPath p) msg

def asObj (p : String) : Json → DecOutcome (List (String × Json))
| .obj ms => .ok ms
| _ => dfail p "invalid type: expected a map"

def deBool (p : String) : Json → DecOutcome Bool
| .bool b => .ok b
| _ => dfail p "invalid type: expected a boolean"

def deString (p : String) : Json → DecOutcome String
| .str s => .ok s
| _ => dfail p "invalid type: expected a string"

/-- Deserialize a u64 (a JSON integer within the u64 range). -/
def deU64 (p : String) : Json → DecOutcome Nat
| .num n => if 0 ≤ n ∧ n < 2 ^ 64 then .ok n.toNat else dfail p "invalid value: out of range for u64"
| _ => dfail p "invalid type: expected an integer"

/-- Deserialize a u8 (a JSON integer within the u8 range). -/
def deU8 (p : String) : Json → DecOutcome Nat
| .num n => if 0 ≤ n ∧ n < 256 then .ok n.toNat else dfail p "invalid value: out of range for u8"
| _ => dfail p "invalid type: expected an integer"

/-- Deserialize an i64 (a JSON integer within the i64 range). -/
def deI64 (p : String) : Json → DecOutcome Int
| .num n => if -(2 ^ 63) ≤ n ∧ n < 2 ^ 63 then .ok n else dfail p "invalid value: out of range for i64"
| _ => dfail p "invalid type: expected an integer"

/-- Deserialize an i8 (a JSON integer within the i8 range). -/
def deI8 (p : String) : Json → DecOutcome Int
| .num n => if -128 ≤ n ∧ n < 128 then .ok n else dfail p "invalid value: out of range for i8"
| _ => dfail p "invalid type: expected an integer"

/-- Deserialize an f64.  The model's numbers are integers, so this accepts any
JSON number; no claim depends on fractional values. -/
def deF64 (p : String) : Json → DecOutcome Int
| .num n => .ok n
| _ => dfail p "invalid type: expected a number"

/-- Deserialize a chrono date or datetime.  The external chrono parser is
abstracted as accepting any JSON string, kept raw. -/
def deDate (p : String) : Json → DecOutcome String
| .str s => .ok s
| _ => dfail p "invalid type: expected a date string"

/-- Rust's `char::to_ascii_lowercase`. -/
def asciiLower (c : Char) : Char :=
  if 'A' ≤ c ∧ c ≤ 'Z' then Char.ofNat (c.toNat + 32) else c

/-- Rust's `str::to_ascii_lowercase`. -/
def lowerAscii (s : String) : String :=
  String.mk (s.data.map asciiLower)

/-- Parse a nonempty run of decimal digits, accumulator style; any other
character is a failure. -/
def parseNatAux : Nat → List Char → Option Nat
| acc, [] => some acc
| acc, c :: rest =>
  if '0' ≤ c ∧ c ≤ '9' then parseNatAux (acc * 10 + (c.toNat - 48)) rest else none

/-- Rust's `u64::from_str`: an optional leading plus sign, then at least one
decimal digit, within the u64 range. -/
def rustParseU64 (s : String) : Option Nat :=
  let ds := match s.data with
    | '+' :: rest => rest
    | ds => ds
  if ds.isEmpty then none
  else match parseNatAux 0 ds with
  | some n => if n < 2 ^ 64 then some n else none
  | none => none

/-- Rust's `str::ends_with(char)`: the last character matches. -/
def endsWithChar (s : String) (c : Char) : Bool :=
  s.data.getLast? == some c

/-- utils::de_str_num at the numeric type u64: the wire value must be a JSON
string whose contents parse as a decimal u64. -/
def de_str_num (p : String) : Json → DecOutcome Nat
| .str s =>
  match rustParseU64 s with
  | some n => .ok n
  | none => dfail p "invalid digit found in string"
| _ => dfail p "invalid type: expected a string"

/-- utils::de_opt_str_num: runs de_str_num and silently turns any failure into
`None` (the `.ok()` call in the source). -/
def de_opt_str_num (p : String) (v : Json) : DecOutcome (Option Nat) :=
  match de_str_num p v with
  | .ok n => .ok (some n)
  | _ => .ok none

/-- utils::de_duration_mins: an i64 minute count, kept as the raw count. -/
def de_duration_mins (p : String) (v : Json) : DecOutcome Int :=
  deI64 p v

/-- utils::se_duration_mins: serialize the minute count back as an integer. -/
def se_duration_mins (minutes : Int) : Json :=
  Json.num minutes

/-- utils::se_str_id: serialize a u64 as a JSON string. -/
def se_str_id (num : Nat) : Json :=
  Json.str (toString num)

/-- serde's handling of `Option<T>`: `null` becomes `None`, any other value is
decoded by the inner decoder. -/
def deOpt (d : String → Json → DecOutcome α) (p : String) : Json → DecOutcome (Option α)
| .null => .ok none
| v => (d p v).bind (fun a => .ok (some a))

/-- A required struct field: missing is a decode error reported at the
struct's path. -/
def reqField (p : String) (ms : List (String × Json)) (k : String)
    (d : String → Json → DecOutcome α) : DecOutcome α :=
  match jlookup ms k with
  | some v => d (joinField p k) v
  | none => dfail p ("missing field " ++ k)

/-- An `Option<T>` struct field without `deserialize_with`: a missing field
becomes `None` (serde's implicit default for Option fields). -/
def optField (p : String) (ms : List (String × Json)) (k : String)
    (d : String → Json → DecOutcome α) : DecOutcome (Option α) :=
  match jlookup ms k with
  | some v => deOpt d (joinField p k) v
  | none => .ok none

/-- serde's deny_unknown_fields check: every member key must be a declared
field name. -/
def checkUnknown (p : String) (ms : List (String × Json)) (known : List String) :
    DecOutcome Unit :=
  match ms.find? (fun kv => !(known.contains kv.1)) with
  | some kv => dfail p ("unknown field " ++ kv.1)
  | none => .ok ()

/-- Decode each element of a JSON array, tracking indices in the path. -/
def deListAux (d : String → Json → DecOutcome α) (p : String) :
    Nat → List Json → DecOutcome (List α)
| _, [] => .ok []
| i, v :: rest => do
  let a ← d (joinIndex p i) v
  let as_ ← deListAux d p (i + 1) rest
  .ok (a :: as_)

/-- Decode a `Vec<T>` field from a JSON array. -/
def deList (d : String → Json → DecOutcome α) (p : String) : Json → DecOutcome (List α)
| .arr vs => deListAux d p 0 vs
| _ => dfail p "invalid type: expected a sequence"

/-! ### The resource kind registry

Modelled from the spec: the module `kind` is declared in lib.rs but the file
src/kind.rs is absent from the sources.  The spec's registry contract (§3,
§4.1) gives a closed catalog of kinds, each with a plural wire name
(`api_name`) and a singular/unique wire name (`api_unique_name`), and
`from_name` resolves either wire name to its kind, failing on any other
string.  The plural wire names are fixed by the serde renames on `Object` in
data.rs; the singular forms follow the spec's plural/singular pairing. -/

inductive NanoKind where
| Badge
| Challenge
| DailyAggregate
| FavoriteAuthor
| FavoriteBook
| Genre
| Group
| GroupExternalLink
| Location
| NanoMessage
| Notification
| Page
| Post
| Project
| ProjectSession
| StopWatch
| Timer
| User
| WritingLocation
| WritingMethod
| GroupUser
| LocationGroup
| ProjectChallenge
| UserBadge
deriving DecidableEq, Repr

/-- Every resource kind, once. -/
def NanoKind.all : List NanoKind :=
  [.Badge, .Challenge, .DailyAggregate, .FavoriteAuthor, .FavoriteBook, .Genre,
   .Group, .GroupExternalLink, .Location, .NanoMessage, .Notification, .Page,
   .Post, .Project, .ProjectSession, .StopWatch, .Timer, .User,
   .WritingLocation, .WritingMethod, .GroupUser, .LocationGroup,
   .ProjectChallenge, .UserBadge]

/-- Modelled from the spec: the plural ("list") wire name of a kind, as used
in collection paths, include lists and the `type` discriminant.  The values
are the serde renames on `Object` in data.rs. -/
def NanoKind.api_name : NanoKind → String
| .Badge => "badges"
| .Challenge => "challenges"
| .DailyAggregate => "daily-aggregates"
| .FavoriteAuthor => "favorite-authors"
| .FavoriteBook => "favorite-books"
| .Genre => "genres"
| .Group => "groups"
| .GroupExternalLink => "group-external-links"
| .Location => "locations"
| .NanoMessage => "nanomessages"
| .Notification => "notifications"
| .Page => "pages"
| .Post => "posts"
| .Project => "projects"
| .ProjectSession => "project-sessions"
| .StopWatch => "stopwatches"
| .Timer => "timers"
| .User => "users"
| .WritingLocation => "writing-locations"
| .WritingMethod => "writing-methods"
| .GroupUser => "group-users"
| .LocationGroup => "location-groups"
| .ProjectChallenge => "project-challenges"
| .UserBadge => "user-badges"

/-- Modelled from the spec: the singular/unique wire name of a kind, used as
a relation map key when a relation is one-to-one. -/
def NanoKind.api_unique_name : NanoKind → String
| .Badge => "badge"
| .Challenge => "challenge"
| .DailyAggregate => "daily-aggregate"
| .FavoriteAuthor => "favorite-author"
| .FavoriteBook => "favorite-book"
| .Genre => "genre"
| .Group => "group"
| .GroupExternalLink => "group-external-link"
| .Location => "location"
| .NanoMessage => "nanomessage"
| .Notification => "notification"
| .Page => "page"
| .Post => "post"
| .Project => "project"
| .ProjectSession => "project-session"
| .StopWatch => "stopwatch"
| .Timer => "timer"
| .User => "user"
| .WritingLocation => "writing-location"
| .WritingMethod => "writing-method"
| .GroupUser => "group-user"
| .LocationGroup => "location-group"
| .ProjectChallenge => "project-challenge"
| .UserBadge => "user-badge"

/-- The wire names the registry recognizes: every plural and every singular
name. -/
def NanoKind.wireNames : List String :=
  NanoKind.all.map NanoKind.api_name ++ NanoKind.all.map NanoKind.api_unique_name

/-- Modelled from the spec: `NanoKind::from_name` resolves a plural or a
singular wire name to its kind; an unrecognized name is an error, never a
default. -/
def NanoKind.from_name (s : String) : Except String NanoKind :=
  match (NanoKind.all.map (fun k => (k.api_name, k)) ++
         NanoKind.all.map (fun k => (k.api_unique_name, k))).find?
        (fun kv => kv.1 == s) with
  | some kv => .ok kv.2
  | none => .error ("Invalid NanoKind name: " ++ s)

/-- utils::de_nanokind: deserialize a string and resolve it through
`NanoKind::from_name`; an unrecognized name is a decode error. -/
def de_nanokind (p : String) : Json → DecOutcome NanoKind
| .str s =>
  match NanoKind.from_name s with
  | .ok k => .ok k
  | .error e => dfail p e
| _ => dfail p "invalid type: expected a string"

/-- utils::se_nanokind: serialize a kind as its plural wire name. -/
def se_nanokind (kind : NanoKind) : Json :=
  Json.str kind.api_name

/-! ### The wire-coded enumerations of enums.rs

Each strict enum carries a `tryFrom` (its `TryFrom` impl, used by serde for
decoding) and a `toWire` (its `From`/`Into` impl, used for encoding).  `Where`
and `How` are the open-ended ones: their `ofWire` is total, with an
`Other(raw)` fallback. -/

/-- serde(try_from = "u8"): deserialize a u8, then convert, surfacing a
conversion failure as a decode error. -/
def deViaU8 (tryFrom : Nat → Except String α) (p : String) (v : Json) : DecOutcome α := do
  let n ← deU8 p v
  match tryFrom n with
  | .ok a => .ok a
  | .error e => dfail p e

/-- serde(try_from = "i8"): deserialize an i8, then convert. -/
def deViaI8 (tryFrom : Int → Except String α) (p : String) (v : Json) : DecOutcome α := do
  let n ← deI8 p v
  match tryFrom n with
  | .ok a => .ok a
  | .error e => dfail p e

/-- serde(try_from = "&str"): deserialize a string, then convert. -/
def deViaStr (tryFrom : String → Except String α) (p : String) (v : Json) : DecOutcome α := do
  let s ← deString p v
  match tryFrom s with
  | .ok a => .ok a
  | .error e => dfail p e

inductive PrivacySetting where
| Private
| Buddies
| Anyone
deriving DecidableEq, Repr

/-- enums.rs: `TryFrom<u8> for PrivacySetting`. -/
def PrivacySetting.tryFrom : Nat → Except String PrivacySetting
| 0 => .ok .Private
| 1 => .ok .Buddies
| 2 => .ok .Anyone
| _ => .error "Cannot convert u8 into PrivacySetting"

/-- enums.rs: `From<PrivacySetting> for u8`. -/
def PrivacySetting.toWire : PrivacySetting → Nat
| .Private => 0
| .Buddies => 1
| .Anyone => 2

inductive ProjectStatus where
| Prepping
| InProgress
| Drafted
| Completed
| Published
deriving DecidableEq, Repr

/-- enums.rs: `TryFrom<&str> for ProjectStatus` (case-insensitive). -/
def ProjectStatus.tryFrom (val : String) : Except String ProjectStatus :=
  match lowerAscii val with
  | "prepping" => .ok .Prepping
  | "in progress" => .ok .InProgress
  | "inprogress" => .ok .InProgress
  | "drafted" => .ok .Drafted
  | "completed" => .ok .Completed
  | "published" => .ok .Published
  | _ => .error "Cannot convert &str into ProjectStatus"

/-- enums.rs: `From<ProjectStatus> for &str`. -/
def ProjectStatus.toWire : ProjectStatus → String
| .Prepping => "Prepping"
| .InProgress => "In Progress"
| .Drafted => "Drafted"
| .Completed => "Completed"
| .Published => "Published"

inductive EventType where
| NanoWrimo
| CampNano
| Custom
deriving DecidableEq, Repr

/-- enums.rs: `TryFrom<u8> for EventType`. -/
def EventType.tryFrom : Nat → Except String EventType
| 0 => .ok .NanoWrimo
| 1 => .ok .CampNano
| 2 => .ok .Custom
| _ => .error "Cannot convert u8 into EventType"

/-- enums.rs: `From<EventType> for u8`. -/
def EventType.toWire : EventType → Nat
| .NanoWrimo => 0
| .CampNano => 1
| .Custom => 2

inductive GroupType where
| Everyone
| Region
| Buddies
| WritingGroup
| Event
deriving DecidableEq, Repr

/-- enums.rs: `TryFrom<&str> for GroupType` (case-insensitive). -/
def GroupType.tryFrom (val : String) : Except String GroupType :=
  match lowerAscii val with
  | "everyone" => .ok .Everyone
  | "region" => .ok .Region
  | "buddies" => .ok .Buddies
  | "writing group" => .ok .WritingGroup
  | "event" => .ok .Event
  | _ => .error "Cannot convert &str into GroupType"

/-- enums.rs: `From<GroupType> for &str`. -/
def GroupType.toWire : GroupType → String
| .Everyone => "everyone"
| .Region => "region"
| .Buddies => "buddies"
| .WritingGroup => "writing group"
| .Event => "event"

inductive EntryMethod where
| Join
| Creator
| Create
| Invited
| Blocked
deriving DecidableEq, Repr

/-- enums.rs: `TryFrom<&str> for EntryMethod` (case-insensitive). -/
def EntryMethod.tryFrom (val : String) : Except String EntryMethod :=
  match lowerAscii val with
  | "join" => .ok .Join
  | "creator" => .ok .Creator
  | "create" => .ok .Create
  | "invited" => .ok .Invited
  | "blocked" => .ok .Blocked
  | _ => .error "Cannot convert &str into EntryMethod"

/-- enums.rs: `From<EntryMethod> for &str`. -/
def EntryMethod.toWire : EntryMethod → String
| .Join => "join"
| .Creator => "creator"
| .Create => "create"
| .Invited => "invited"
| .Blocked => "blocked"

inductive AdminLevel where
| User
| Admin
deriving DecidableEq, Repr

/-- enums.rs: `TryFrom<u8> for AdminLevel`. -/
def AdminLevel.tryFrom : Nat → Except String AdminLevel
| 0 => .ok .User
| 1 => .ok .Admin
| _ => .error "Cannot convert u8 into AdminLevel"

/-- enums.rs: `From<AdminLevel> for u8`. -/
def AdminLevel.toWire : AdminLevel → Nat
| .User => 0
| .Admin => 1

inductive ActionType where
| BadgeAwarded
| BuddiesPage
| NanoMessages
| ProjectsPage
deriving DecidableEq, Repr

/-- enums.rs: `TryFrom<&str> for ActionType` (exact match). -/
def ActionType.tryFrom (val : String) : Except String ActionType :=
  match val with
  | "BADGE_AWARDED" => .ok .BadgeAwarded
  | "BUDDIES_PAGE" => .ok .BuddiesPage
  | "NANOMESSAGES" => .ok .NanoMessages
  | "PROJECTS_PAGE" => .ok .ProjectsPage
  | _ => .error "Cannot convert &str into ActionType"

/-- enums.rs: `From<ActionType> for &str`. -/
def ActionType.toWire : ActionType → String
| .BadgeAwarded => "BADGE_AWARDED"
| .BuddiesPage => "BUDDIES_PAGE"
| .NanoMessages => "NANOMESSAGES"
| .ProjectsPage => "PROJECTS_PAGE"

inductive DisplayStatus where
| AllNotifs
| RecentNotifs
deriving DecidableEq, Repr

/-- enums.rs: `TryFrom<u8> for DisplayStatus`. -/
def DisplayStatus.tryFrom : Nat → Except String DisplayStatus
| 0 => .ok .AllNotifs
| 1 => .ok .RecentNotifs
| _ => .error "Cannot convert u8 into DisplayStatus"

/-- enums.rs: `From<DisplayStatus> for u8`. -/
def DisplayStatus.toWire : DisplayStatus → Nat
| .AllNotifs => 0
| .RecentNotifs => 1

inductive WritingType where
| Novel
| ShortStories
| Memoir
| Script
| Nonfiction
| Poetry
| Other
deriving DecidableEq, Repr

/-- enums.rs: `TryFrom<u8> for WritingType`: 0 through 6 decode, anything else
is an error (in particular 8 does not decode). -/
def WritingType.tryFrom : Nat → Except String WritingType
| 0 => .ok .Novel
| 1 => .ok .ShortStories
| 2 => .ok .Memoir
| 3 => .ok .Script
| 4 => .ok .Nonfiction
| 5 => .ok .Poetry
| 6 => .ok .Other
| _ => .error "Cannot convert u8 into WritingType"

/-- enums.rs: `From<WritingType> for u8`: note the source maps `Other` to 8,
not 6. -/
def WritingType.toWire : WritingType → Nat
| .Novel => 0
| .ShortStories => 1
| .Memoir => 2
| .Script => 3
| .Nonfiction => 4
| .Poetry => 5
| .Other => 8

inductive ContentType where
| GeneralContent
| StackedContent
| Plate
| GroupOfPeople
| GroupOfPageCards
| PersonCard
| PepTalk
| PlainText
deriving DecidableEq, Repr

/-- enums.rs: `TryFrom<&str> for ContentType` (exact match). -/
def ContentType.tryFrom (val : String) : Except String ContentType :=
  match val with
  | "General content" => .ok .GeneralContent
  | "Stacked Content" => .ok .StackedContent
  | "Plate" => .ok .Plate
  | "Group of people" => .ok .GroupOfPeople
  | "Group of page cards" => .ok .GroupOfPageCards
  | "Person Card" => .ok .PersonCard
  | "Pep Talk" => .ok .PepTalk
  | "Plain Text" => .ok .PlainText
  | _ => .error "Cannot convert &str into ContentType"

/-- enums.rs: `From<ContentType> for &str`. -/
def ContentType.toWire : ContentType → String
| .GeneralContent => "General content"
| .StackedContent => "Stacked Content"
| .Plate => "Plate"
| .GroupOfPeople => "Group of people"
| .GroupOfPageCards => "Group of page cards"
| .PersonCard => "Person Card"
| .PepTalk => "Pep Talk"
| .PlainText => "Plain Text"

inductive RegistrationPath where
| Email
| Facebook
| Google
deriving DecidableEq, Repr

/-- enums.rs: `TryFrom<&str> for RegistrationPath` (case-insensitive). -/
def RegistrationPath.tryFrom (val : String) : Except String RegistrationPath :=
  match lowerAscii val with
  | "email" => .ok .Email
  | "facebook" => .ok .Facebook
  | "google" => .ok .Google
  | _ => .error "Cannot convert &str into RegistrationPath"

/-- enums.rs: `From<RegistrationPath> for &str`. -/
def RegistrationPath.toWire : RegistrationPath → String
| .Email => "email"
| .Facebook => "Facebook"
| .Google => "Google"

inductive BadgeType where
| WordCount
| SelfAwarded
| Participation
deriving DecidableEq, Repr

/-- enums.rs: `TryFrom<&str> for BadgeType` (case-insensitive). -/
def BadgeType.tryFrom (val : String) : Except String BadgeType :=
  match lowerAscii val with
  | "word count" => .ok .WordCount
  | "self-awarded" => .ok .SelfAwarded
  | "participation" => .ok .Participation
  | _ => .error "Cannot convert &str into BadgeType"

/-- enums.rs: `From<BadgeType> for &str`. -/
def BadgeType.toWire : BadgeType → String
| .WordCount => "word count"
| .SelfAwarded => "self-awarded"
| .Participation => "participation"

inductive JoiningRule where
| AdminOnly
| AnyUser
deriving DecidableEq, Repr

/-- enums.rs: `TryFrom<u8> for JoiningRule`. -/
def JoiningRule.tryFrom : Nat → Except String JoiningRule
| 0 => .ok .AdminOnly
| 1 => .ok .AnyUser
| _ => .error "Cannot convert u8 into JoiningRule"

/-- enums.rs: `From<JoiningRule> for u8`. -/
def JoiningRule.toWire : JoiningRule → Nat
| .AdminOnly => 0
| .AnyUser => 1

inductive UnitType where
| Words
| Hours
deriving DecidableEq, Repr

/-- enums.rs: `TryFrom<u8> for UnitType`. -/
def UnitType.tryFrom : Nat → Except String UnitType
| 0 => .ok .Words
| 1 => .ok .Hours
| _ => .error "Cannot convert u8 into UnitType"

/-- enums.rs: `From<UnitType> for u8`. -/
def UnitType.toWire : UnitType → Nat
| .Words => 0
| .Hours => 1

inductive AdheresTo where
| Unknown
| User
| ProjectChallenge
deriving DecidableEq, Repr

/-- enums.rs: `TryFrom<&str> for AdheresTo` (exact match; empty string means
Unknown). -/
def AdheresTo.tryFrom (val : String) : Except String AdheresTo :=
  match val with
  | "" => .ok .Unknown
  | "user" => .ok .User
  | "project_challenge" => .ok .ProjectChallenge
  | _ => .error "Cannot convert &str into AdheresTo"

/-- enums.rs: `From<AdheresTo> for &str`. -/
def AdheresTo.toWire : AdheresTo → String
| .Unknown => ""
| .User => "user"
| .ProjectChallenge => "project_challenge"

inductive Feeling where
| Upset
| Stressed
| Okay
| PrettyGood
| Great
deriving DecidableEq, Repr

/-- enums.rs: `TryFrom<u8> for Feeling` (note the 1-based wire values). -/
def Feeling.tryFrom : Nat → Except String Feeling
| 1 => .ok .Upset
| 2 => .ok .Stressed
| 3 => .ok .Okay
| 4 => .ok .PrettyGood
| 5 => .ok .Great
| _ => .error "Cannot convert u8 into Feeling"

/-- enums.rs: `From<Feeling> for u8`. -/
def Feeling.toWire : Feeling → Nat
| .Upset => 1
| .Stressed => 2
| .Okay => 3
| .PrettyGood => 4
| .Great => 5

inductive Where where
| Home
| Office
| Library
| Cafe
| Other (raw : Nat)
deriving DecidableEq, Repr

/-- enums.rs: `From<u8> for Where` — total, with the `Other(raw)` fallback for
any value above 3. -/
def Where.ofWire : Nat → Where
| 0 => .Home
| 1 => .Office
| 2 => .Library
| 3 => .Cafe
| n => .Other n

/-- enums.rs: `Into<u8> for Where`. -/
def Where.toWire : Where → Nat
| .Home => 0
| .Office => 1
| .Library => 2
| .Cafe => 3
| .Other raw => raw

/-- serde(from = "u8") for Where: deserialize a u8 then apply the total
conversion. -/
def deWhere (p : String) (v : Json) : DecOutcome Where := do
  let n ← deU8 p v
  .ok (Where.ofWire n)

inductive How where
| ByHand
| Typewriter
| Laptop
| Phone
| Other (raw : Nat)
deriving DecidableEq, Repr

/-- enums.rs: `From<u64> for How` — total, with the `Other(raw)` fallback for
any value above 3. -/
def How.ofWire : Nat → How
| 0 => .ByHand
| 1 => .Typewriter
| 2 => .Laptop
| 3 => .Phone
| n => .Other n

/-- enums.rs: `Into<u64> for How`. -/
def How.toWire : How → Nat
| .ByHand => 0
| .Typewriter => 1
| .Laptop => 2
| .Phone => 3
| .Other raw => raw

/-- serde(from = "u64") for How: deserialize a u64 then apply the total
conversion. -/
def deHow (p : String) (v : Json) : DecOutcome How := do
  let n ← deU64 p v
  .ok (How.ofWire n)

inductive InvitationStatus where
| Blocked
| Sent
| Accepted
deriving DecidableEq, Repr

/-- enums.rs: `TryFrom<i8> for InvitationStatus` (wire values -2, 0, 1). -/
def InvitationStatus.tryFrom : Int → Except String InvitationStatus
| -2 => .ok .Blocked
| 0 => .ok .Sent
| 1 => .ok .Accepted
| _ => .error "Cannot convert i8 into InvitationStatus"

/-- enums.rs: `From<InvitationStatus> for i8`. -/
def InvitationStatus.toWire : InvitationStatus → Int
| .Blocked => -2
| .Sent => 0
| .Accepted => 1

/-! ### Object references, relation links, and the relationship map codecs -/

/-- data.rs `ObjectRef`: a lightweight (id, kind) pointer to a resource. -/
structure ObjectRef where
  id : Nat
  kind : NanoKind
deriving DecidableEq, Repr

/-- Deserializing an `ObjectRef` (deny_unknown_fields): `id` is a
numeric-as-string (de_str_num) and `type` resolves through de_nanokind. -/
def ObjectRef.decode (p : String) (v : Json) : DecOutcome ObjectRef := do
  let ms ← asObj p v
  let _ ← checkUnknown p ms ["id", "type"]
  let id ← reqField p ms "id" de_str_num
  let kind ← reqField p ms "type" de_nanokind
  .ok ⟨id, kind⟩

/-- Serializing an `ObjectRef`: `id` through se_str_id (a JSON string) and
`type` through se_nanokind (the plural wire name). -/
def ObjectRef.toJson (r : ObjectRef) : Json :=
  Json.obj [("id", se_str_id r.id), ("type", se_nanokind r.kind)]

/-- data.rs `RelationLink`: the `self`/`related` URI pair of a relation.  The
Rust field `self` is `this` here, as in the source's rename. -/
structure RelationLink where
  this : String
  related : String
deriving DecidableEq, Repr

/-- Deserializing a `RelationLink` (deny_unknown_fields). -/
def RelationLink.decode (p : String) (v : Json) : DecOutcome RelationLink := do
  let ms ← asObj p v
  let _ ← checkUnknown p ms ["self", "related"]
  let this ← reqField p ms "self" deString
  let related ← reqField p ms "related" deString
  .ok ⟨this, related⟩

/-- Serializing a `RelationLink`. -/
def RelationLink.toJson (l : RelationLink) : Json :=
  Json.obj [("self", Json.str l.this), ("related", Json.str l.related)]

/-- Decode every value of a string-keyed map with the given decoder, keeping
the entry order of the input. -/
def deMapValues (d : String → Json → DecOutcome α) (p : String) :
    List (String × Json) → DecOutcome (List (String × α))
| [] => .ok []
| (k, v) :: rest => do
  let a ← d (joinField p k) v
  let tl ← deMapValues d p rest
  .ok ((k, a) :: tl)

/-- The `DataWrap` helper inside utils::de_rel_includes: an object whose
optional `data` member is a list of ObjectRefs; other members are ignored. -/
def deDataWrap (p : String) (v : Json) : DecOutcome (Option (List ObjectRef)) := do
  let ms ← asObj p v
  optField p ms "data" (deList ObjectRef.decode)

/-- The filter-and-map stage of utils::de_rel_includes: entries whose `data`
is absent are dropped; the remaining keys resolve through
`NanoKind::from_name`, and an unrecognized key aborts through `expect`. -/
def de_rel_includes_aux :
    List (String × Option (List ObjectRef)) → DecOutcome (List (NanoKind × List ObjectRef))
| [] => .ok []
| (_, none) :: rest => de_rel_includes_aux rest
| (k, some refs) :: rest =>
  match NanoKind.from_name k with
  | .ok kind => (de_rel_includes_aux rest).bind (fun tl => .ok ((kind, refs) :: tl))
  | .error _ => .panics "unwrap de_rel_includes key"

/-- utils::de_rel_includes: deserialize the relationships map as
`HashMap<String, DataWrap>`, drop entries without `data`, and resolve the keys
(aborting on an unrecognized key). -/
def de_rel_includes (p : String) (ms : List (String × Json)) :
    DecOutcome (List (NanoKind × List ObjectRef)) := do
  let wraps ← deMapValues deDataWrap p ms
  de_rel_includes_aux wraps

/-- utils::se_rel_includes: a kind whose reference list has exactly one
element is emitted under its singular/unique wire name wrapped as
`SeRelIncludeInner::Single` (an object with one `data` member); any other
length is emitted under the plural wire name as `SeRelIncludeInner::Multi`
(the bare array), matching the untagged serialization of the source. -/
def se_rel_includes (val : List (NanoKind × List ObjectRef)) : List (String × Json) :=
  val.map (fun kv =>
    match kv.2 with
    | [r] => (kv.1.api_unique_name, Json.obj [("data", r.toJson)])
    | refs => (kv.1.api_name, Json.arr (refs.map ObjectRef.toJson)))

/-- The `LinkWrap` helper inside utils::de_relation: an object with a
required `links` member holding a RelationLink. -/
def deLinkWrap (p : String) (v : Json) : DecOutcome RelationLink := do
  let ms ← asObj p v
  reqField p ms "links" RelationLink.decode

/-- The key-resolution stage of utils::de_relation: every key resolves
through `NanoKind::from_name`, and an unrecognized key aborts through
`expect`. -/
def de_relation_aux :
    List (String × RelationLink) → DecOutcome (List (NanoKind × RelationLink))
| [] => .ok []
| (k, l) :: rest =>
  match NanoKind.from_name k with
  | .ok kind => (de_relation_aux rest).bind (fun tl => .ok ((kind, l) :: tl))
  | .error _ => .panics "unwrap de_relation name"

/-- utils::de_relation: deserialize the relationships map as
`HashMap<String, LinkWrap>` and resolve the keys (aborting on an unrecognized
key). -/
def de_relation (p : String) (ms : List (String × Json)) :
    DecOutcome (List (NanoKind × RelationLink)) := do
  let wraps ← deMapValues deLinkWrap p ms
  de_relation_aux wraps

/-- utils::se_relation: every relation is emitted under its plural wire
name. -/
def se_relation (val : List (NanoKind × RelationLink)) : List (String × Json) :=
  val.map (fun kv => (kv.1.api_name, kv.2.toJson))

/-- data.rs `RelationInfo`: the per-resource relationships, split into the
side-loaded reference lists and the relation links.  Maps are modelled as
association lists in entry order. -/
structure RelationInfo where
  included : List (NanoKind × List ObjectRef)
  relations : List (NanoKind × RelationLink)
deriving DecidableEq, Repr

/-- Deserializing a `RelationInfo`: both fields are flattened over the same
relationships object, so both custom deserializers see every member. -/
def RelationInfo.decode (p : String) (v : Json) : DecOutcome RelationInfo := do
  let ms ← asObj p v
  let included ← de_rel_includes p ms
  let relations ← de_relation p ms
  .ok ⟨included, relations⟩

/-- Serializing a `RelationInfo`: the flattened members produced by
se_rel_includes followed by those of se_relation. -/
def RelationInfo.toJson (r : RelationInfo) : Json :=
  Json.obj (se_rel_includes r.included ++ se_relation r.relations)

/-- data.rs `LinkInfo`: a mandatory `self` link plus any other links,
flattened. -/
structure LinkInfo where
  this : String
  others : List (String × String)
deriving DecidableEq, Repr

/-- Every remaining member of a flattened `HashMap<String, String>` must be a
string. -/
def deStringMap (p : String) : List (String × Json) → DecOutcome (List (String × String))
| [] => .ok []
| (k, v) :: rest => do
  let s ← deString (joinField p k) v
  let tl ← deStringMap p rest
  .ok ((k, s) :: tl)

/-- Deserializing a `LinkInfo`: `self` is required; all other members are
collected by the flattened map and must be strings. -/
def LinkInfo.decode (p : String) (v : Json) : DecOutcome LinkInfo := do
  let ms ← asObj p v
  let this ← reqField p ms "self" deString
  let others ← deStringMap p (ms.filter (fun kv => kv.1 ≠ "self"))
  .ok ⟨this, others⟩

/-- Serializing a `LinkInfo`. -/
def LinkInfo.toJson (l : LinkInfo) : Json :=
  Json.obj (("self", Json.str l.this) :: l.others.map (fun kv => (kv.1, Json.str kv.2)))

/-! ### The per-kind attribute schemas of data.rs

Each `<Kind>Data` struct is decoded strictly: kebab-case field names,
`deny_unknown_fields` where the source declares it (everywhere except
`LocationData`, `UserData` and the two one-field structs), dates through the
abstracted chrono decoder, enum fields through their wire conversions. -/

/-- serde's handling of a flattened `Option<Group>` field, processed over
the buffer of keys no named field consumed: FlatMapDeserializer's
deserialize_option yields `None` exactly when the buffer is empty; with any
buffered key remaining it commits to `Some`, decoding the whole group (every
required field must then be present) and consuming the group's keys from the
buffer for the flattened fields that follow. -/
def deFlattenOptGroup (keys : List String)
    (dec : String → List (String × Json) → DecOutcome α)
    (p : String) (buffer : List (String × Json)) :
    DecOutcome (Option α × List (String × Json)) :=
  if buffer.isEmpty then .ok (none, buffer)
  else
    (dec p buffer).bind (fun a =>
      .ok (some a, buffer.filter (fun kv => !(keys.contains kv.1))))

structure BadgeData where
  active : Bool
  adheres_to : AdheresTo
  awarded : String
  awarded_description : String
  badge_type : BadgeType
  description : String
  generic_description : String
  list_order : Nat
  suborder : Option Nat
  title : String
  unawarded : String
  winner : Bool
deriving DecidableEq, Repr

def BadgeData.decode (p : String) (v : Json) : DecOutcome BadgeData := do
  let ms ← asObj p v
  let _ ← checkUnknown p ms ["active", "adheres-to", "awarded", "awarded-description",
    "badge-type", "description", "generic-description", "list-order", "suborder",
    "title", "unawarded", "winner"]
  let active ← reqField p ms "active" deBool
  let adheres_to ← reqField p ms "adheres-to" (deViaStr AdheresTo.tryFrom)
  let awarded ← reqField p ms "awarded" deString
  let awarded_description ← reqField p ms "awarded-description" deString
  let badge_type ← reqField p ms "badge-type" (deViaStr BadgeType.tryFrom)
  let description ← reqField p ms "description" deString
  let generic_description ← reqField p ms "generic-description" deString
  let list_order ← reqField p ms "list-order" deU64
  let suborder ← optField p ms "suborder" deU64
  let title ← reqField p ms "title" deString
  let unawarded ← reqField p ms "unawarded" deString
  let winner ← reqField p ms "winner" deBool
  .ok ⟨active, adheres_to, awarded, awarded_description, badge_type, description,
       generic_description, list_order, suborder, title, unawarded, winner⟩

structure ChallengeData where
  default_goal : Nat
  ends_at : String
  event_type : Option EventType
  flexible_goal : Option Bool
  name : String
  prep_starts_at : Option String
  starts_at : String
  unit_type : UnitType
  user_id : Nat
  win_allowed_at : Option String
  writing_type : WritingType
deriving DecidableEq, Repr

def ChallengeData.decode (p : String) (v : Json) : DecOutcome ChallengeData := do
  let ms ← asObj p v
  let _ ← checkUnknown p ms ["default-goal", "ends-at", "event-type", "flexible-goal",
    "name", "prep-starts-at", "starts-at", "unit-type", "user-id", "win-allowed-at",
    "writing-type"]
  let default_goal ← reqField p ms "default-goal" deU64
  let ends_at ← reqField p ms "ends-at" deDate
  let event_type ← optField p ms "event-type" (deViaU8 EventType.tryFrom)
  let flexible_goal ← optField p ms "flexible-goal" deBool
  let name ← reqField p ms "name" deString
  let prep_starts_at ← optField p ms "prep-starts-at" deDate
  let starts_at ← reqField p ms "starts-at" deDate
  let unit_type ← reqField p ms "unit-type" (deViaU8 UnitType.tryFrom)
  let user_id ← reqField p ms "user-id" deU64
  let win_allowed_at ← optField p ms "win-allowed-at" deDate
  let writing_type ← reqField p ms "writing-type" (deViaU8 WritingType.tryFrom)
  .ok ⟨default_goal, ends_at, event_type, flexible_goal, name, prep_starts_at,
       starts_at, unit_type, user_id, win_allowed_at, writing_type⟩

structure DailyAggregateData where
  count : Nat
  day : String
  project_id : Nat
  unit_type : UnitType
  user_id : Option Nat
deriving DecidableEq, Repr

def DailyAggregateData.decode (p : String) (v : Json) : DecOutcome DailyAggregateData := do
  let ms ← asObj p v
  let _ ← checkUnknown p ms ["count", "day", "project-id", "unit-type", "user-id"]
  let count ← reqField p ms "count" deU64
  let day ← reqField p ms "day" deDate
  let project_id ← reqField p ms "project-id" deU64
  let unit_type ← reqField p ms "unit-type" (deViaU8 UnitType.tryFrom)
  let user_id ← optField p ms "user-id" deU64
  .ok ⟨count, day, project_id, unit_type, user_id⟩

structure FavoriteAuthorData where
  name : String
  user_id : Nat
deriving DecidableEq, Repr

def FavoriteAuthorData.decode (p : String) (v : Json) : DecOutcome FavoriteAuthorData := do
  let ms ← asObj p v
  let _ ← checkUnknown p ms ["name", "user-id"]
  let name ← reqField p ms "name" deString
  let user_id ← reqField p ms "user-id" deU64
  .ok ⟨name, user_id⟩

structure FavoriteBookData where
  title : String
  user_id : Nat
deriving DecidableEq, Repr

def FavoriteBookData.decode (p : String) (v : Json) : DecOutcome FavoriteBookData := do
  let ms ← asObj p v
  let _ ← checkUnknown p ms ["title", "user-id"]
  let title ← reqField p ms "title" deString
  let user_id ← reqField p ms "user-id" deU64
  .ok ⟨title, user_id⟩

structure GenreData where
  name : String
  user_id : Nat
deriving DecidableEq, Repr

def GenreData.decode (p : String) (v : Json) : DecOutcome GenreData := do
  let ms ← asObj p v
  let _ ← checkUnknown p ms ["name", "user-id"]
  let name ← reqField p ms "name" deString
  let user_id ← reqField p ms "user-id" deU64
  .ok ⟨name, user_id⟩

structure GroupData where
  approved_by_id : Nat
  avatar : Option String
  cancelled_by_id : Nat
  created_at : String
  description : Option String
  end_dt : Option String
  forum_link : Option String
  group_id : Option Nat
  group_type : GroupType
  joining_rule : Option JoiningRule
  latitude : Option Int
  longitude : Option Int
  max_member_count : Option Nat
  member_count : Option Nat
  name : String
  plate : Option String
  slug : String
  start_dt : Option String
  time_zone : Option String
  updated_at : String
  url : Option String
  user_id : Option Nat
deriving DecidableEq, Repr

def GroupData.decode (p : String) (v : Json) : DecOutcome GroupData := do
  let ms ← asObj p v
  let _ ← checkUnknown p ms ["approved-by-id", "avatar", "cancelled-by-id",
    "created-at", "description", "end-dt", "forum-link", "group-id", "group-type",
    "joining-rule", "latitude", "longitude", "max-member-count", "member-count",
    "name", "plate", "slug", "start-dt", "time-zone", "updated-at", "url", "user-id"]
  let approved_by_id ← reqField p ms "approved-by-id" deU64
  let avatar ← optField p ms "avatar" deString
  let cancelled_by_id ← reqField p ms "cancelled-by-id" deU64
  let created_at ← reqField p ms "created-at" deDate
  let description ← optField p ms "description" deString
  let end_dt ← optField p ms "end-dt" deDate
  let forum_link ← optField p ms "forum-link" deString
  let group_id ← optField p ms "group-id" deU64
  let group_type ← reqField p ms "group-type" (deViaStr GroupType.tryFrom)
  let joining_rule ← optField p ms "joining-rule" (deViaU8 JoiningRule.tryFrom)
  let latitude ← optField p ms "latitude" deF64
  let longitude ← optField p ms "longitude" deF64
  let max_member_count ← optField p ms "max-member-count" deU64
  let member_count ← optField p ms "member-count" deU64
  let name ← reqField p ms "name" deString
  let plate ← optField p ms "plate" deString
  let slug ← reqField p ms "slug" deString
  let start_dt ← optField p ms "start-dt" deDate
  let time_zone ← optField p ms "time-zone" deString
  let updated_at ← reqField p ms "updated-at" deDate
  let url ← optField p ms "url" deString
  let user_id ← optField p ms "user-id" deU64
  .ok ⟨approved_by_id, avatar, cancelled_by_id, created_at, description, end_dt,
       forum_link, group_id, group_type, joining_rule, latitude, longitude,
       max_member_count, member_count, name, plate, slug, start_dt, time_zone,
       updated_at, url, user_id⟩

structure GroupExternalLinkData where
  group_id : Nat
  label : Option String
  url : String
deriving DecidableEq, Repr

def GroupExternalLinkData.decode (p : String) (v : Json) : DecOutcome GroupExternalLinkData := do
  let ms ← asObj p v
  let _ ← checkUnknown p ms ["group-id", "label", "url"]
  let group_id ← reqField p ms "group-id" deU64
  let label ← optField p ms "label" deString
  let url ← reqField p ms "url" deString
  .ok ⟨group_id, label, url⟩

structure LocationData where
  city : String
  country : String
  county : Option String
  formatted_address : Option String
  latitude : Int
  longitude : Int
  map_url : Option String
  municipality : Option String
  name : String
  neighborhood : Option String
  postal_code : Option Nat
  state : String
  street1 : Option String
  street2 : Option String
  utc_offset : Option Int
deriving DecidableEq, Repr

/-- `LocationData` has no deny_unknown_fields; `postal-code` must be present
(its `deserialize_with` disables serde's implicit Option default) and goes
through de_opt_str_num, which never fails. -/
def LocationData.decode (p : String) (v : Json) : DecOutcome LocationData := do
  let ms ← asObj p v
  let city ← reqField p ms "city" deString
  let country ← reqField p ms "country" deString
  let county ← optField p ms "county" deString
  let formatted_address ← optField p ms "formatted-address" deString
  let latitude ← reqField p ms "latitude" deF64
  let longitude ← reqField p ms "longitude" deF64
  let map_url ← optField p ms "map-url" deString
  let municipality ← optField p ms "municipality" deString
  let name ← reqField p ms "name" deString
  let neighborhood ← optField p ms "neighborhood" deString
  let postal_code ← reqField p ms "postal-code" de_opt_str_num
  let state ← reqField p ms "state" deString
  let street1 ← optField p ms "street1" deString
  let street2 ← optField p ms "street2" deString
  let utc_offset ← optField p ms "utc-offset" deI64
  .ok ⟨city, country, county, formatted_address, latitude, longitude, map_url,
       municipality, name, neighborhood, postal_code, state, street1, street2,
       utc_offset⟩

structure NanoMessageData where
  content : String
  created_at : String
  group_id : Nat
  official : Bool
  send_email : Option Bool
  sender_avatar_url : Option String
  sender_name : Option String
  sender_slug : Option String
  updated_at : String
  user_id : Nat
deriving DecidableEq, Repr

def NanoMessageData.decode (p : String) (v : Json) : DecOutcome NanoMessageData := do
  let ms ← asObj p v
  let _ ← checkUnknown p ms ["content", "created-at", "group-id", "official",
    "send-email", "sender-avatar-url", "sender-name", "sender-slug", "updated-at",
    "user-id"]
  let content ← reqField p ms "content" deString
  let created_at ← reqField p ms "created-at" deDate
  let group_id ← reqField p ms "group-id" deU64
  let official ← reqField p ms "official" deBool
  let send_email ← optField p ms "send-email" deBool
  let sender_avatar_url ← optField p ms "sender-avatar-url" deString
  let sender_name ← optField p ms "sender-name" deString
  let sender_slug ← optField p ms "sender-slug" deString
  let updated_at ← reqField p ms "updated-at" deDate
  let user_id ← reqField p ms "user-id" deU64
  .ok ⟨content, created_at, group_id, official, send_email, sender_avatar_url,
       sender_name, sender_slug, updated_at, user_id⟩

structure NotificationData where
  action_id : Option Nat
  action_type : ActionType
  content : String
  created_at : String
  data_count : Option Nat
  display_at : String
  display_status : DisplayStatus
  headline : String
  image_url : Option String
  last_viewed_at : Option String
  redirect_url : Option String
  updated_at : String
  user_id : Nat
deriving DecidableEq, Repr

def NotificationData.decode (p : String) (v : Json) : DecOutcome NotificationData := do
  let ms ← asObj p v
  let _ ← checkUnknown p ms ["action-id", "action-type", "content", "created-at",
    "data-count", "display-at", "display-status", "headline", "image-url",
    "last-viewed-at", "redirect-url", "updated-at", "user-id"]
  let action_id ← optField p ms "action-id" deU64
  let action_type ← reqField p ms "action-type" (deViaStr ActionType.tryFrom)
  let content ← reqField p ms "content" deString
  let created_at ← reqField p ms "created-at" deDate
  let data_count ← optField p ms "data-count" deU64
  let display_at ← reqField p ms "display-at" deDate
  let display_status ← reqField p ms "display-status" (deViaU8 DisplayStatus.tryFrom)
  let headline ← reqField p ms "headline" deString
  let image_url ← optField p ms "image-url" deString
  let last_viewed_at ← optField p ms "last-viewed-at" deDate
  let redirect_url ← optField p ms "redirect-url" deString
  let updated_at ← reqField p ms "updated-at" deDate
  let user_id ← reqField p ms "user-id" deU64
  .ok ⟨action_id, action_type, content, created_at, data_count, display_at,
       display_status, headline, image_url, last_viewed_at, redirect_url,
       updated_at, user_id⟩

structure PageData where
  body : String
  url : String
  headline : String
  content_type : ContentType
  show_after : Option String
  promotional_card_image : Option String
deriving DecidableEq, Repr

def PageData.decode (p : String) (v : Json) : DecOutcome PageData := do
  let ms ← asObj p v
  let _ ← checkUnknown p ms ["body", "url", "headline", "content-type", "show-after",
    "promotional-card-image"]
  let body ← reqField p ms "body" deString
  let url ← reqField p ms "url" deString
  let headline ← reqField p ms "headline" deString
  let content_type ← reqField p ms "content-type" (deViaStr ContentType.tryFrom)
  let show_after ← optField p ms "show-after" deDate
  let promotional_card_image ← optField p ms "promotional-card-image" deString
  .ok ⟨body, url, headline, content_type, show_after, promotional_card_image⟩

structure PostData where
  api_code : Option String
  body : String
  card_image : Option String
  content_type : ContentType
  expires_at : Option String
  external_link : Option String
  headline : String
  offer_code : Option String
  order : Option Nat
  published : Bool
  subhead : Option String
deriving DecidableEq, Repr

def PostData.decode (p : String) (v : Json) : DecOutcome PostData := do
  let ms ← asObj p v
  let _ ← checkUnknown p ms ["api-code", "body", "card-image", "content-type",
    "expires-at", "external-link", "headline", "offer-code", "order", "published",
    "subhead"]
  let api_code ← optField p ms "api-code" deString
  let body ← reqField p ms "body" deString
  let card_image ← optField p ms "card-image" deString
  let content_type ← reqField p ms "content-type" (deViaStr ContentType.tryFrom)
  let expires_at ← optField p ms "expires-at" deDate
  let external_link ← optField p ms "external-link" deString
  let headline ← reqField p ms "headline" deString
  let offer_code ← optField p ms "offer-code" deString
  let order ← optField p ms "order" deU64
  let published ← reqField p ms "published" deBool
  let subhead ← optField p ms "subhead" deString
  .ok ⟨api_code, body, card_image, content_type, expires_at, external_link,
       headline, offer_code, order, published, subhead⟩

structure ProjectData where
  cover : Option String
  created_at : String
  excerpt : Option String
  pinterest_url : Option String
  playlist_url : Option String
  primary : Option Int
  privacy : PrivacySetting
  slug : String
  status : ProjectStatus
  summary : Option String
  title : String
  unit_count : Option Nat
  unit_type : UnitType
  user_id : Nat
  writing_type : WritingType
deriving DecidableEq, Repr

def ProjectData.decode (p : String) (v : Json) : DecOutcome ProjectData := do
  let ms ← asObj p v
  let _ ← checkUnknown p ms ["cover", "created-at", "excerpt", "pinterest-url",
    "playlist-url", "primary", "privacy", "slug", "status", "summary", "title",
    "unit-count", "unit-type", "user-id", "writing-type"]
  let cover ← optField p ms "cover" deString
  let created_at ← reqField p ms "created-at" deDate
  let excerpt ← optField p ms "excerpt" deString
  let pinterest_url ← optField p ms "pinterest-url" deString
  let playlist_url ← optField p ms "playlist-url" deString
  let primary ← optField p ms "primary" deI64
  let privacy ← reqField p ms "privacy" (deViaU8 PrivacySetting.tryFrom)
  let slug ← reqField p ms "slug" deString
  let status ← reqField p ms "status" (deViaStr ProjectStatus.tryFrom)
  let summary ← optField p ms "summary" deString
  let title ← reqField p ms "title" deString
  let unit_count ← optField p ms "unit-count" deU64
  let unit_type ← reqField p ms "unit-type" (deViaU8 UnitType.tryFrom)
  let user_id ← reqField p ms "user-id" deU64
  let writing_type ← reqField p ms "writing-type" (deViaU8 WritingType.tryFrom)
  .ok ⟨cover, created_at, excerpt, pinterest_url, playlist_url, primary, privacy,
       slug, status, summary, title, unit_count, unit_type, user_id, writing_type⟩

structure ProjectSessionData where
  count : Int
  created_at : Option String
  end_ : Option String
  feeling : Option Feeling
  how : Option How
  project_challenge_id : Option Nat
  project_id : Option Nat
  session_date : Option String
  start : Option String
  unit_type : UnitType
  where_ : Option Where
deriving DecidableEq, Repr

/-- data.rs `ProjectSessionData::default()`: count 0, every Option `None`,
`unit_type` the default `Words`. -/
def ProjectSessionData.default_ : ProjectSessionData :=
  ⟨0, none, none, none, none, none, none, none, none, .Words, none⟩

def ProjectSessionData.decode (p : String) (v : Json) : DecOutcome ProjectSessionData := do
  let ms ← asObj p v
  let _ ← checkUnknown p ms ["count", "created-at", "end", "feeling", "how",
    "project-challenge-id", "project-id", "session-date", "start", "unit-type",
    "where"]
  let count ← reqField p ms "count" deI64
  let created_at ← optField p ms "created-at" deDate
  let end_ ← optField p ms "end" deDate
  let feeling ← optField p ms "feeling" (deViaU8 Feeling.tryFrom)
  let how ← optField p ms "how" deHow
  let project_challenge_id ← optField p ms "project-challenge-id" deU64
  let project_id ← optField p ms "project-id" deU64
  let session_date ← optField p ms "session-date" deDate
  let start ← optField p ms "start" deDate
  let unit_type ← reqField p ms "unit-type" (deViaU8 UnitType.tryFrom)
  let where_ ← optField p ms "where" deWhere
  .ok ⟨count, created_at, end_, feeling, how, project_challenge_id, project_id,
       session_date, start, unit_type, where_⟩

structure StopWatchData where
  start : String
  stop : Option String
deriving DecidableEq, Repr

def StopWatchData.decode (p : String) (v : Json) : DecOutcome StopWatchData := do
  let ms ← asObj p v
  let _ ← checkUnknown p ms ["start", "stop"]
  let start ← reqField p ms "start" deDate
  let stop ← optField p ms "stop" deDate
  .ok ⟨start, stop⟩

structure TimerData where
  cancelled : Bool
  duration : Int
  start : String
deriving DecidableEq, Repr

def TimerData.decode (p : String) (v : Json) : DecOutcome TimerData := do
  let ms ← asObj p v
  let _ ← checkUnknown p ms ["cancelled", "duration", "start"]
  let cancelled ← reqField p ms "cancelled" deBool
  let duration ← reqField p ms "duration" de_duration_mins
  let start ← reqField p ms "start" deDate
  .ok ⟨cancelled, duration, start⟩

structure EmailSettings where
  blog_posts : Bool
  buddy_requests : Bool
  events_in_home_region : Bool
  nanomessages_buddies : Bool
  nanomessages_hq : Bool
  nanomessages_mls : Bool
  nanowrimo_updates : Bool
  newsletter : Bool
  writing_reminders : Bool
deriving DecidableEq, Repr

def EmailSettings.keys : List String :=
  ["email-blog-posts", "email-buddy-requests", "email-events-in-home-region",
   "email-nanomessages-buddies", "email-nanomessages-hq", "email-nanomessages-mls",
   "email-nanowrimo-updates", "email-newsletter", "email-writing-reminders"]

def EmailSettings.decodeFrom (p : String) (ms : List (String × Json)) :
    DecOutcome EmailSettings := do
  let blog_posts ← reqField p ms "email-blog-posts" deBool
  let buddy_requests ← reqField p ms "email-buddy-requests" deBool
  let events_in_home_region ← reqField p ms "email-events-in-home-region" deBool
  let nanomessages_buddies ← reqField p ms "email-nanomessages-buddies" deBool
  let nanomessages_hq ← reqField p ms "email-nanomessages-hq" deBool
  let nanomessages_mls ← reqField p ms "email-nanomessages-mls" deBool
  let nanowrimo_updates ← reqField p ms "email-nanowrimo-updates" deBool
  let newsletter ← reqField p ms "email-newsletter" deBool
  let writing_reminders ← reqField p ms "email-writing-reminders" deBool
  .ok ⟨blog_posts, buddy_requests, events_in_home_region, nanomessages_buddies,
       nanomessages_hq, nanomessages_mls, nanowrimo_updates, newsletter,
       writing_reminders⟩

structure NotificationSettings where
  buddy_activities : Bool
  buddy_requests : Bool
  events_in_home_region : Bool
  goal_milestones : Bool
  nanomessages_buddies : Bool
  nanomessages_hq : Bool
  nanomessages_mls : Bool
  new_badges : Bool
  sprint_invitation : Bool
  sprint_start : Bool
  writing_reminders : Bool
deriving DecidableEq, Repr

def NotificationSettings.keys : List String :=
  ["notification-buddy-activities", "notification-buddy-requests",
   "notification-events-in-home-region", "notification-goal-milestones",
   "notification-nanomessages-buddies", "notification-nanomessages-hq",
   "notification-nanomessages-mls", "notification-new-badges",
   "notification-sprint-invitation", "notification-sprint-start",
   "notification-writing-reminders"]

def NotificationSettings.decodeFrom (p : String) (ms : List (String × Json)) :
    DecOutcome NotificationSettings := do
  let buddy_activities ← reqField p ms "notification-buddy-activities" deBool
  let buddy_requests ← reqField p ms "notification-buddy-requests" deBool
  let events_in_home_region ← reqField p ms "notification-events-in-home-region" deBool
  let goal_milestones ← reqField p ms "notification-goal-milestones" deBool
  let nanomessages_buddies ← reqField p ms "notification-nanomessages-buddies" deBool
  let nanomessages_hq ← reqField p ms "notification-nanomessages-hq" deBool
  let nanomessages_mls ← reqField p ms "notification-nanomessages-mls" deBool
  let new_badges ← reqField p ms "notification-new-badges" deBool
  let sprint_invitation ← reqField p ms "notification-sprint-invitation" deBool
  let sprint_start ← reqField p ms "notification-sprint-start" deBool
  let writing_reminders ← reqField p ms "notification-writing-reminders" deBool
  .ok ⟨buddy_activities, buddy_requests, events_in_home_region, goal_milestones,
       nanomessages_buddies, nanomessages_hq, nanomessages_mls, new_badges,
       sprint_invitation, sprint_start, writing_reminders⟩

structure PrivacySettings where
  send_nanomessages : PrivacySetting
  view_buddies : PrivacySetting
  view_profile : PrivacySetting
  view_projects : PrivacySetting
  view_search : PrivacySetting
  visibility_activity_logs : Bool
  visibility_buddy_lists : Bool
  visibility_regions : Bool
deriving DecidableEq, Repr

def PrivacySettings.keys : List String :=
  ["privacy-send-nanomessages", "privacy-view-buddies", "privacy-view-profile",
   "privacy-view-projects", "privacy-view-search", "privacy-visibility-activity-logs",
   "privacy-visibility-buddy-lists", "privacy-visibility-regions"]

def PrivacySettings.decodeFrom (p : String) (ms : List (String × Json)) :
    DecOutcome PrivacySettings := do
  let send_nanomessages ← reqField p ms "privacy-send-nanomessages" (deViaU8 PrivacySetting.tryFrom)
  let view_buddies ← reqField p ms "privacy-view-buddies" (deViaU8 PrivacySetting.tryFrom)
  let view_profile ← reqField p ms "privacy-view-profile" (deViaU8 PrivacySetting.tryFrom)
  let view_projects ← reqField p ms "privacy-view-projects" (deViaU8 PrivacySetting.tryFrom)
  let view_search ← reqField p ms "privacy-view-search" (deViaU8 PrivacySetting.tryFrom)
  let visibility_activity_logs ← reqField p ms "privacy-visibility-activity-logs" deBool
  let visibility_buddy_lists ← reqField p ms "privacy-visibility-buddy-lists" deBool
  let visibility_regions ← reqField p ms "privacy-visibility-regions" deBool
  .ok ⟨send_nanomessages, view_buddies, view_profile, view_projects, view_search,
       visibility_activity_logs, visibility_buddy_lists, visibility_regions⟩

structure StatsInfo where
  projects : Nat
  projects_enabled : Bool
  streak : Nat
  streak_enabled : Bool
  word_count : Nat
  word_count_enabled : Bool
  wordiest : Nat
  wordiest_enabled : Bool
  writing_pace : Option Nat
  writing_pace_enabled : Bool
  years_done : Option Nat
  years_enabled : Bool
  years_won : Option Nat
deriving DecidableEq, Repr

def StatsInfo.decodeFrom (p : String) (ms : List (String × Json)) :
    DecOutcome StatsInfo := do
  let projects ← reqField p ms "stats-projects" deU64
  let projects_enabled ← reqField p ms "stats-projects-enabled" deBool
  let streak ← reqField p ms "stats-streak" deU64
  let streak_enabled ← reqField p ms "stats-streak-enabled" deBool
  let word_count ← reqField p ms "stats-word-count" deU64
  let word_count_enabled ← reqField p ms "stats-word-count-enabled" deBool
  let wordiest ← reqField p ms "stats-wordiest" deU64
  let wordiest_enabled ← reqField p ms "stats-wordiest-enabled" deBool
  let writing_pace ← optField p ms "stats-writing-pace" deU64
  let writing_pace_enabled ← reqField p ms "stats-writing-pace-enabled" deBool
  let years_done ← optField p ms "stats-years-done" deU64
  let years_enabled ← reqField p ms "stats-years-enabled" deBool
  let years_won ← optField p ms "stats-years-won" deU64
  .ok ⟨projects, projects_enabled, streak, streak_enabled, word_count,
       word_count_enabled, wordiest, wordiest_enabled, writing_pace,
       writing_pace_enabled, years_done, years_enabled, years_won⟩

structure UserData where
  admin_level : AdminLevel
  avatar : Option String
  bio : Option String
  confirmed_at : String
  created_at : String
  discourse_username : Option String
  email : Option String
  email_settings : Option EmailSettings
  halo : Bool
  laurels : Nat
  location : Option String
  name : String
  notification_settings : Option NotificationSettings
  notifications_viewed_at : String
  plate : Option String
  postal_code : Option Nat
  privacy_settings : Option PrivacySettings
  registration_path : RegistrationPath
  setting_session_count_by_session : Nat
  setting_session_more_info : Bool
  slug : String
  stats : StatsInfo
  time_zone : String
deriving DecidableEq, Repr

/-- The wire names of `UserData`'s named (non-flattened) fields: every other
member of the attributes map goes to the flatten buffer. -/
def UserData.namedKeys : List String :=
  ["admin-level", "avatar", "bio", "confirmed-at", "created-at",
   "discourse-username", "email", "halo", "laurels", "location", "name",
   "notifications-viewed-at", "plate", "postal-code", "registration-path",
   "setting-session-count-by-session", "setting-session-more-info", "slug",
   "time-zone"]

/-- `UserData` has no deny_unknown_fields (it flattens the settings groups
and the stats block); `postal-code` must be present and goes through the
never-failing de_opt_str_num.  The flattened fields follow serde's buffer
discipline: every key no named field consumed is buffered, and the flattened
fields are processed in declaration order — the three Option groups through
deFlattenOptGroup (each consuming its keys), then the mandatory `StatsInfo`
from what remains.  Because the required stats keys are always in the buffer,
the Option groups are in practice forced to `Some`, so a user document
lacking a settings group fails with a missing-field error. -/
def UserData.decode (p : String) (v : Json) : DecOutcome UserData := do
  let ms ← asObj p v
  let admin_level ← reqField p ms "admin-level" (deViaU8 AdminLevel.tryFrom)
  let avatar ← optField p ms "avatar" deString
  let bio ← optField p ms "bio" deString
  let confirmed_at ← reqField p ms "confirmed-at" deDate
  let created_at ← reqField p ms "created-at" deDate
  let discourse_username ← optField p ms "discourse-username" deString
  let email ← optField p ms "email" deString
  let halo ← reqField p ms "halo" deBool
  let laurels ← reqField p ms "laurels" deU64
  let location ← optField p ms "location" deString
  let name ← reqField p ms "name" deString
  let notifications_viewed_at ← reqField p ms "notifications-viewed-at" deDate
  let plate ← optField p ms "plate" deString
  let postal_code ← reqField p ms "postal-code" de_opt_str_num
  let registration_path ← reqField p ms "registration-path" (deViaStr RegistrationPath.tryFrom)
  let setting_session_count_by_session ←
    reqField p ms "setting-session-count-by-session" deU8
  let setting_session_more_info ← reqField p ms "setting-session-more-info" deBool
  let slug ← reqField p ms "slug" deString
  let time_zone ← reqField p ms "time-zone" deString
  let buffer0 := ms.filter (fun kv => !(UserData.namedKeys.contains kv.1))
  let eRes ← deFlattenOptGroup EmailSettings.keys EmailSettings.decodeFrom p buffer0
  let nRes ← deFlattenOptGroup NotificationSettings.keys
    NotificationSettings.decodeFrom p eRes.2
  let pRes ← deFlattenOptGroup PrivacySettings.keys PrivacySettings.decodeFrom p nRes.2
  let stats ← StatsInfo.decodeFrom p pRes.2
  .ok ⟨admin_level, avatar, bio, confirmed_at, created_at, discourse_username,
       email, eRes.1, halo, laurels, location, name, nRes.1,
       notifications_viewed_at, plate, postal_code, pRes.1, registration_path,
       setting_session_count_by_session, setting_session_more_info, slug, stats,
       time_zone⟩

structure WritingLocationData where
  name : String
deriving DecidableEq, Repr

/-- `WritingLocationData` has neither renames nor deny_unknown_fields. -/
def WritingLocationData.decode (p : String) (v : Json) : DecOutcome WritingLocationData := do
  let ms ← asObj p v
  let name ← reqField p ms "name" deString
  .ok ⟨name⟩

structure WritingMethodData where
  name : String
deriving DecidableEq, Repr

/-- `WritingMethodData` has neither renames nor deny_unknown_fields. -/
def WritingMethodData.decode (p : String) (v : Json) : DecOutcome WritingMethodData := do
  let ms ← asObj p v
  let name ← reqField p ms "name" deString
  .ok ⟨name⟩

/-- Serializing a `WritingMethodData` (used for the outbound-body facts). -/
def WritingMethodData.toJson (d : WritingMethodData) : Json :=
  Json.obj [("name", Json.str d.name)]

structure GroupUserData where
  created_at : String
  entry_at : Option String
  entry_method : EntryMethod
  exit_at : Option String
  exit_method : Option String
  group_code_id : Option Nat
  group_id : Nat
  group_type : GroupType
  invitation_accepted : InvitationStatus
  invited_by_id : Option Nat
  is_admin : Option Bool
  latest_message : Option String
  num_unread_messages : Nat
  primary : Nat
  updated_at : String
  user_id : Nat
deriving DecidableEq, Repr

def GroupUserData.decode (p : String) (v : Json) : DecOutcome GroupUserData := do
  let ms ← asObj p v
  let _ ← checkUnknown p ms ["created-at", "entry-at", "entry-method", "exit-at",
    "exit-method", "group-code-id", "group-id", "group-type", "invitation-accepted",
    "invited-by-id", "is-admin", "latest-message", "num-unread-messages", "primary",
    "updated-at", "user-id"]
  let created_at ← reqField p ms "created-at" deDate
  let entry_at ← optField p ms "entry-at" deDate
  let entry_method ← reqField p ms "entry-method" (deViaStr EntryMethod.tryFrom)
  let exit_at ← optField p ms "exit-at" deDate
  let exit_method ← optField p ms "exit-method" deString
  let group_code_id ← optField p ms "group-code-id" deU64
  let group_id ← reqField p ms "group-id" deU64
  let group_type ← reqField p ms "group-type" (deViaStr GroupType.tryFrom)
  let invitation_accepted ← reqField p ms "invitation-accepted" (deViaI8 InvitationStatus.tryFrom)
  let invited_by_id ← optField p ms "invited-by-id" deU64
  let is_admin ← optField p ms "is-admin" deBool
  let latest_message ← optField p ms "latest-message" deString
  let num_unread_messages ← reqField p ms "num-unread-messages" deU64
  let primary ← reqField p ms "primary" deU64
  let updated_at ← reqField p ms "updated-at" deDate
  let user_id ← reqField p ms "user-id" deU64
  .ok ⟨created_at, entry_at, entry_method, exit_at, exit_method, group_code_id,
       group_id, group_type, invitation_accepted, invited_by_id, is_admin,
       latest_message, num_unread_messages, primary, updated_at, user_id⟩

structure LocationGroupData where
  group_id : Nat
  location_id : Nat
  primary : Bool
deriving DecidableEq, Repr

def LocationGroupData.decode (p : String) (v : Json) : DecOutcome LocationGroupData := do
  let ms ← asObj p v
  let _ ← checkUnknown p ms ["group-id", "location-id", "primary"]
  let group_id ← reqField p ms "group-id" deU64
  let location_id ← reqField p ms "location-id" deU64
  let primary ← reqField p ms "primary" deBool
  .ok ⟨group_id, location_id, primary⟩

structure ProjectChallengeData where
  challenge_id : Nat
  current_count : Nat
  ends_at : String
  event_type : EventType
  feeling : Option Feeling
  goal : Nat
  how : Option How
  last_recompute : Option String
  name : String
  project_id : Nat
  speed : Option Nat
  start_count : Option Nat
  starts_at : String
  streak : Option Nat
  unit_type : UnitType
  user_id : Nat
  when : Option Nat
  won_at : Option String
  writing_location : Option String
  writing_type : Option WritingType
deriving DecidableEq, Repr

def ProjectChallengeData.decode (p : String) (v : Json) : DecOutcome ProjectChallengeData := do
  let ms ← asObj p v
  let _ ← checkUnknown p ms ["challenge-id", "current-count", "ends-at", "event-type",
    "feeling", "goal", "how", "last-recompute", "name", "project-id", "speed",
    "start-count", "starts-at", "streak", "unit-type", "user-id", "when", "won-at",
    "writing-location", "writing-type"]
  let challenge_id ← reqField p ms "challenge-id" deU64
  let current_count ← reqField p ms "current-count" deU64
  let ends_at ← reqField p ms "ends-at" deDate
  let event_type ← reqField p ms "event-type" (deViaU8 EventType.tryFrom)
  let feeling ← optField p ms "feeling" (deViaU8 Feeling.tryFrom)
  let goal ← reqField p ms "goal" deU64
  let how ← optField p ms "how" deHow
  let last_recompute ← optField p ms "last-recompute" deDate
  let name ← reqField p ms "name" deString
  let project_id ← reqField p ms "project-id" deU64
  let speed ← optField p ms "speed" deU64
  let start_count ← optField p ms "start-count" deU64
  let starts_at ← reqField p ms "starts-at" deDate
  let streak ← optField p ms "streak" deU64
  let unit_type ← reqField p ms "unit-type" (deViaU8 UnitType.tryFrom)
  let user_id ← reqField p ms "user-id" deU64
  let when ← optField p ms "when" deU64
  let won_at ← optField p ms "won-at" deDate
  let writing_location ← optField p ms "writing-location" deString
  let writing_type ← optField p ms "writing-type" (deViaU8 WritingType.tryFrom)
  .ok ⟨challenge_id, current_count, ends_at, event_type, feeling, goal, how,
       last_recompute, name, project_id, speed, start_count, starts_at, streak,
       unit_type, user_id, when, won_at, writing_location, writing_type⟩

structure UserBadgeData where
  badge_id : Nat
  created_at : String
  project_challenge_id : Nat
  user_id : Nat
deriving DecidableEq, Repr

def UserBadgeData.decode (p : String) (v : Json) : DecOutcome UserBadgeData := do
  let ms ← asObj p v
  let _ ← checkUnknown p ms ["badge-id", "created-at", "project-challenge-id", "user-id"]
  let badge_id ← reqField p ms "badge-id" deU64
  let created_at ← reqField p ms "created-at" deDate
  let project_challenge_id ← reqField p ms "project-challenge-id" deU64
  let user_id ← reqField p ms "user-id" deU64
  .ok ⟨badge_id, created_at, project_challenge_id, user_id⟩

/-! ### The polymorphic resource model -/

/-- The shape every macro-generated `<Kind>Object` struct shares (`obj_ty!`
in data.rs): an id, optional relationships and links, and the kind-specific
attributes. -/
structure ObjStruct (δ : Type) where
  id : Nat
  relationships : Option RelationInfo
  links : Option LinkInfo
  attributes : δ
deriving DecidableEq, Repr

/-- Deserializing a `<Kind>Object` struct: `id` is required and goes through
de_str_num; `relationships` and `links` default to None; `attributes` uses
the kind's schema.  The generated structs have no deny_unknown_fields, so any
other member — including a `type` discriminant — is ignored. -/
def ObjStruct.decode (deAttrs : String → Json → DecOutcome δ) (p : String) (v : Json) :
    DecOutcome (ObjStruct δ) := do
  let ms ← asObj p v
  let id ← reqField p ms "id" de_str_num
  let relationships ← optField p ms "relationships" RelationInfo.decode
  let links ← optField p ms "links" LinkInfo.decode
  let attributes ← reqField p ms "attributes" deAttrs
  .ok ⟨id, relationships, links, attributes⟩

/-- Serializing a `<Kind>Object` struct: `id` is skipped when it is the zero
sentinel and otherwise emitted as a bare JSON number (the macro puts no
serialize_with on `id`, only skip_serializing_if = is_zero); None
relationships and links are skipped. -/
def ObjStruct.toJson (seAttrs : δ → Json) (o : ObjStruct δ) : Json :=
  Json.obj
    ((if o.id = 0 then [] else [("id", Json.num (o.id : Int))]) ++
     (match o.relationships with
      | some r => [("relationships", r.toJson)]
      | none => []) ++
     (match o.links with
      | some l => [("links", l.toJson)]
      | none => []) ++
     [("attributes", seAttrs o.attributes)])

abbrev BadgeObject := ObjStruct BadgeData
abbrev ChallengeObject := ObjStruct ChallengeData
abbrev DailyAggregateObject := ObjStruct DailyAggregateData
abbrev FavoriteAuthorObject := ObjStruct FavoriteAuthorData
abbrev FavoriteBookObject := ObjStruct FavoriteBookData
abbrev GenreObject := ObjStruct GenreData
abbrev GroupObject := ObjStruct GroupData
abbrev GroupExternalLinkObject := ObjStruct GroupExternalLinkData
abbrev LocationObject := ObjStruct LocationData
abbrev NanoMessageObject := ObjStruct NanoMessageData
abbrev NotificationObject := ObjStruct NotificationData
abbrev PageObject := ObjStruct PageData
abbrev PostObject := ObjStruct PostData
abbrev ProjectObject := ObjStruct ProjectData
abbrev ProjectSessionObject := ObjStruct ProjectSessionData
abbrev StopWatchObject := ObjStruct StopWatchData
abbrev TimerObject := ObjStruct TimerData
abbrev UserObject := ObjStruct UserData
abbrev WritingLocationObject := ObjStruct WritingLocationData
abbrev WritingMethodObject := ObjStruct WritingMethodData
abbrev GroupUserObject := ObjStruct GroupUserData
abbrev LocationGroupObject := ObjStruct LocationGroupData
abbrev ProjectChallengeObject := ObjStruct ProjectChallengeData
abbrev UserBadgeObject := ObjStruct UserBadgeData

/-- data.rs `Object`: the tagged union over every resource kind. -/
inductive Object where
| Badge (data : BadgeObject)
| Challenge (data : ChallengeObject)
| DailyAggregate (data : DailyAggregateObject)
| FavoriteAuthor (data : FavoriteAuthorObject)
| FavoriteBook (data : FavoriteBookObject)
| Genre (data : GenreObject)
| Group (data : GroupObject)
| GroupExternalLink (data : GroupExternalLinkObject)
| Location (data : LocationObject)
| NanoMessage (data : NanoMessageObject)
| Notification (data : NotificationObject)
| Page (data : PageObject)
| Post (data : PostObject)
| Project (data : ProjectObject)
| ProjectSession (data : ProjectSessionObject)
| StopWatch (data : StopWatchObject)
| Timer (data : TimerObject)
| User (data : UserObject)
| WritingLocation (data : WritingLocationObject)
| WritingMethod (data : WritingMethodObject)
| GroupUser (data : GroupUserObject)
| LocationGroup (data : LocationGroupObject)
| ProjectChallenge (data : ProjectChallengeObject)
| UserBadge (data : UserBadgeObject)
deriving DecidableEq, Repr

/-- The capability view `ObjectInfo::kind`, dispatched once per variant as in
the macro-generated impls. -/
def Object.kind : Object → NanoKind
| .Badge _ => .Badge
| .Challenge _ => .Challenge
| .DailyAggregate _ => .DailyAggregate
| .FavoriteAuthor _ => .FavoriteAuthor
| .FavoriteBook _ => .FavoriteBook
| .Genre _ => .Genre
| .Group _ => .Group
| .GroupExternalLink _ => .GroupExternalLink
| .Location _ => .Location
| .NanoMessage _ => .NanoMessage
| .Notification _ => .Notification
| .Page _ => .Page
| .Post _ => .Post
| .Project _ => .Project
| .ProjectSession _ => .ProjectSession
| .StopWatch _ => .StopWatch
| .Timer _ => .Timer
| .User _ => .User
| .WritingLocation _ => .WritingLocation
| .WritingMethod _ => .WritingMethod
| .GroupUser _ => .GroupUser
| .LocationGroup _ => .LocationGroup
| .ProjectChallenge _ => .ProjectChallenge
| .UserBadge _ => .UserBadge

/-- The capability view `ObjectInfo::id`, through the inner dispatch. -/
def Object.id : Object → Nat
| .Badge d => d.id
| .Challenge d => d.id
| .DailyAggregate d => d.id
| .FavoriteAuthor d => d.id
| .FavoriteBook d => d.id
| .Genre d => d.id
| .Group d => d.id
| .GroupExternalLink d => d.id
| .Location d => d.id
| .NanoMessage d => d.id
| .Notification d => d.id
| .Page d => d.id
| .Post d => d.id
| .Project d => d.id
| .ProjectSession d => d.id
| .StopWatch d => d.id
| .Timer d => d.id
| .User d => d.id
| .WritingLocation d => d.id
| .WritingMethod d => d.id
| .GroupUser d => d.id
| .LocationGroup d => d.id
| .ProjectChallenge d => d.id
| .UserBadge d => d.id

/-- Deserializing the generic `Object` union (serde internally tagged by
`type`): read the `type` member, select the variant by its serde rename, and
decode the variant's object struct from the same document (serde passes the
content with the tag removed; the structs ignore unknown members, so passing
the whole document is equivalent).  An unrecognized tag is a decode error. -/
def Object.decode (p : String) (v : Json) : DecOutcome Object := do
  let ms ← asObj p v
  match jlookup ms "type" with
  | some (Json.str name) =>
    match name with
    | "badges" => (ObjStruct.decode BadgeData.decode p v).bind (fun o => .ok (.Badge o))
    | "challenges" => (ObjStruct.decode ChallengeData.decode p v).bind (fun o => .ok (.Challenge o))
    | "daily-aggregates" => (ObjStruct.decode DailyAggregateData.decode p v).bind (fun o => .ok (.DailyAggregate o))
    | "favorite-authors" => (ObjStruct.decode FavoriteAuthorData.decode p v).bind (fun o => .ok (.FavoriteAuthor o))
    | "favorite-books" => (ObjStruct.decode FavoriteBookData.decode p v).bind (fun o => .ok (.FavoriteBook o))
    | "genres" => (ObjStruct.decode GenreData.decode p v).bind (fun o => .ok (.Genre o))
    | "groups" => (ObjStruct.decode GroupData.decode p v).bind (fun o => .ok (.Group o))
    | "group-external-links" => (ObjStruct.decode GroupExternalLinkData.decode p v).bind (fun o => .ok (.GroupExternalLink o))
    | "locations" => (ObjStruct.decode LocationData.decode p v).bind (fun o => .ok (.Location o))
    | "nanomessages" => (ObjStruct.decode NanoMessageData.decode p v).bind (fun o => .ok (.NanoMessage o))
    | "notifications" => (ObjStruct.decode NotificationData.decode p v).bind (fun o => .ok (.Notification o))
    | "pages" => (ObjStruct.decode PageData.decode p v).bind (fun o => .ok (.Page o))
    | "posts" => (ObjStruct.decode PostData.decode p v).bind (fun o => .ok (.Post o))
    | "projects" => (ObjStruct.decode ProjectData.decode p v).bind (fun o => .ok (.Project o))
    | "project-sessions" => (ObjStruct.decode ProjectSessionData.decode p v).bind (fun o => .ok (.ProjectSession o))
    | "stopwatches" => (ObjStruct.decode StopWatchData.decode p v).bind (fun o => .ok (.StopWatch o))
    | "timers" => (ObjStruct.decode TimerData.decode p v).bind (fun o => .ok (.Timer o))
    | "users" => (ObjStruct.decode UserData.decode p v).bind (fun o => .ok (.User o))
    | "writing-locations" => (ObjStruct.decode WritingLocationData.decode p v).bind (fun o => .ok (.WritingLocation o))
    | "writing-methods" => (ObjStruct.decode WritingMethodData.decode p v).bind (fun o => .ok (.WritingMethod o))
    | "group-users" => (ObjStruct.decode GroupUserData.decode p v).bind (fun o => .ok (.GroupUser o))
    | "location-groups" => (ObjStruct.decode LocationGroupData.decode p v).bind (fun o => .ok (.LocationGroup o))
    | "project-challenges" => (ObjStruct.decode ProjectChallengeData.decode p v).bind (fun o => .ok (.ProjectChallenge o))
    | "user-badges" => (ObjStruct.decode UserBadgeData.decode p v).bind (fun o => .ok (.UserBadge o))
    | _ => dfail p ("unknown variant " ++ name)
  | some _ => dfail p "invalid type: the type tag is not a string"
  | none => dfail p "missing field type"

/-! ### Response envelopes -/

mutual
/-- data.rs `PostInfo`: the extra block flattened into post/page responses
(its field names carry no kebab-case rename). -/
inductive PostInfo : Type where
| mk (after_posts : List PostItem) (author_cards : PostCollection)
     (before_posts : List PostItem)

/-- `ItemResponse<PostObject>` as it occurs inside `PostInfo`. -/
inductive PostItem : Type where
| mk (data : PostObject) (included : Option (List Object))
     (post_info : Option PostInfo)

/-- `CollectionResponse<PostObject>` as it occurs inside `PostInfo`. -/
inductive PostCollection : Type where
| mk (data : List PostObject) (included : Option (List Object))
     (post_info : Option PostInfo)
end

/-- The flattened `Option<Box<PostInfo>>` member of a response envelope,
processed over the buffer of members the envelope's named fields (`data`,
`included`) did not consume: under serde's FlatMapDeserializer it is `None`
exactly when that buffer is empty, and with any buffered member remaining it
commits to `Some`, requiring all three post fields.  The decode recurses
through nested post responses; `fuel` bounds that nesting as serde_json's
own recursion limit does. -/
def dePostInfoOpt : Nat → String → List (String × Json) → DecOutcome (Option PostInfo)
| fuel, p, buffer =>
  if buffer.isEmpty then .ok none
  else
    match fuel with
    | 0 => dfail p "recursion limit exceeded"
    | fuel + 1 =>
      let deItem : String → Json → DecOutcome PostItem := fun p' v' => do
        let ms' ← asObj p' v'
        let data ← reqField p' ms' "data" (ObjStruct.decode PostData.decode)
        let included ← optField p' ms' "included" (deList Object.decode)
        let post_info ← dePostInfoOpt fuel p'
          (ms'.filter (fun kv => !(kv.1 == "data" || kv.1 == "included")))
        .ok (PostItem.mk data included post_info)
      let deColl : String → Json → DecOutcome PostCollection := fun p' v' => do
        let ms' ← asObj p' v'
        let data ← reqField p' ms' "data" (deList (ObjStruct.decode PostData.decode))
        let included ← optField p' ms' "included" (deList Object.decode)
        let post_info ← dePostInfoOpt fuel p'
          (ms'.filter (fun kv => !(kv.1 == "data" || kv.1 == "included")))
        .ok (PostCollection.mk data included post_info)
      do
        let after_posts ← reqField p buffer "after_posts" (deList deItem)
        let author_cards ← reqField p buffer "author_cards" deColl
        let before_posts ← reqField p buffer "before_posts" (deList deItem)
        .ok (some (PostInfo.mk after_posts author_cards before_posts))

/-- data.rs `ItemResponse<D>`: a single returned object, optional side-loaded
resources, optional flattened post info. -/
structure ItemResponse (δ : Type) where
  data : δ
  included : Option (List Object)
  post_info : Option PostInfo

/-- Deserializing an `ItemResponse<D>` with the given data decoder.  The
declared deny_unknown_fields is disabled by the flattened post_info member,
so unknown members are collected by the flatten and ignored. -/
def deItemResponse (fuel : Nat) (deData : String → Json → DecOutcome δ)
    (p : String) (v : Json) : DecOutcome (ItemResponse δ) := do
  let ms ← asObj p v
  let data ← reqField p ms "data" deData
  let included ← optField p ms "included" (deList Object.decode)
  let post_info ← dePostInfoOpt fuel p
    (ms.filter (fun kv => !(kv.1 == "data" || kv.1 == "included")))
  .ok ⟨data, included, post_info⟩

/-- data.rs `CollectionResponse<D>`: an array of returned objects, optional
side-loaded resources, optional flattened post info. -/
structure CollectionResponse (δ : Type) where
  data : List δ
  included : Option (List Object)
  post_info : Option PostInfo

/-- Deserializing a `CollectionResponse<D>` with the given data decoder. -/
def deCollectionResponse (fuel : Nat) (deData : String → Json → DecOutcome δ)
    (p : String) (v : Json) : DecOutcome (CollectionResponse δ) := do
  let ms ← asObj p v
  let data ← reqField p ms "data" (deList deData)
  let included ← optField p ms "included" (deList Object.decode)
  let post_info ← dePostInfoOpt fuel p
    (ms.filter (fun kv => !(kv.1 == "data" || kv.1 == "included")))
  .ok ⟨data, included, post_info⟩

/-! ### Errors and response classification -/

/-- data.rs `ErrorData`: one entry of a server-reported error list (code and
status are numeric-as-string on the wire; no deny_unknown_fields). -/
structure ErrorData where
  code : Nat
  detail : String
  status : Nat
  title : String
deriving DecidableEq, Repr

def ErrorData.decode (p : String) (v : Json) : DecOutcome ErrorData := do
  let ms ← asObj p v
  let code ← reqField p ms "code" de_str_num
  let detail ← reqField p ms "detail" deString
  let status ← reqField p ms "status" de_str_num
  let title ← reqField p ms "title" deString
  .ok ⟨code, detail, status, title⟩

/-- data.rs `NanoError`: the untagged server-error union. -/
inductive NanoError where
| SimpleError (error : String)
| ErrorList (errors : List ErrorData)
deriving DecidableEq, Repr

/-- Deserializing the untagged `NanoError` union with deny_unknown_fields:
try `SimpleError` (exactly an `error` string member), then `ErrorList`
(exactly an `errors` array member), as serde tries untagged variants in
declaration order. -/
def NanoError.decode (v : Json) : DecOutcome NanoError :=
  match (do
    let ms ← asObj "" v
    let _ ← checkUnknown "" ms ["error"]
    let e ← reqField "" ms "error" deString
    (.ok (NanoError.SimpleError e) : DecOutcome NanoError)) with
  | .ok r => .ok r
  | _ =>
    match (do
      let ms ← asObj "" v
      let _ ← checkUnknown "" ms ["errors"]
      let es ← reqField "" ms "errors" (deList ErrorData.decode)
      (.ok (NanoError.ErrorList es) : DecOutcome NanoError)) with
    | .ok r => .ok r
    | _ => dfail "" "data did not match any variant of untagged enum NanoError"

/-- error.rs `Error`: the client's error type; the external library errors
(serde_json, reqwest) are carried as messages. -/
inductive Error where
| NoCredentials
| BadJSON (err : String)
| ResponseDecoding (path : String) (err : String)
| ReqwestError (err : String)
| SimpleNanoError (status : Nat) (message : String)
| NanoErrors (errs : List ErrorData)
deriving DecidableEq, Repr

/-- The outcome of one `make_request`: success, a client `Error`, or a
process abort raised by a panicking deserializer. -/
inductive ReqOutcome (α : Type) where
| ok (a : α)
| err (e : Error)
| panics (msg : String)
deriving DecidableEq, Repr

/-- client.rs `make_request`: whether the parsed body is an object with a
top-level `error` or `errors` member. -/
def hasErrorKey : Json → Bool
| .obj ms => (jlookup ms "error").isSome || (jlookup ms "errors").isSome
| _ => false

/-- client.rs `make_request`, from the received response on.  The status is
checked against the two fixed codes before the body is read; for every other
status the body text is parsed as generic JSON (`unwrap_or_default`: an
unparseable body, `body = none` here, acts as Null), the top-level error keys
are probed and, when present, the `NanoError` union is decoded and mapped
(its own decode failure becoming `BadJSON` through the `?`); only then is the
strict typed decode run on the body, a failure being wrapped as
`ResponseDecoding` with the path tracked by serde_path_to_error. -/
def make_request_classify (status : Nat) (body : Option Json)
    (decode : Json → DecOutcome α) : ReqOutcome α :=
  if status = 500 then .err (.SimpleNanoError status "Internal Server Error")
  else if status = 404 then .err (.SimpleNanoError status "Page Not Found")
  else
    let nano_val := body.getD Json.null
    if hasErrorKey nano_val then
      match NanoError.decode nano_val with
      | .ok (.SimpleError e) => .err (.SimpleNanoError status e)
      | .ok (.ErrorList es) => .err (.NanoErrors es)
      | .fail _ m => .err (.BadJSON m)
      | .panics m => .panics m
    else
      match body with
      | none => .err (.ResponseDecoding "." "expected value")
      | some v =>
        match decode v with
        | .ok a => .ok a
        | .fail pth m => .err (.ResponseDecoding pth m)
        | .panics m => .panics m

/-! ### The session state machine and the retry dispatcher -/

structure Creds where
  username : String
  password : String
deriving DecidableEq, Repr

/-- client.rs `NanoClient`: the session state — credentials fixed at
construction, the token behind the lock. -/
structure NanoClient where
  creds : Option Creds
  token : Option String
deriving DecidableEq, Repr

/-- client.rs `NanoClient::new_anon`: no credentials, no token. -/
def NanoClient.new_anon : NanoClient :=
  ⟨none, none⟩

/-- client.rs `NanoClient::new`: credentials stored, no token yet. -/
def NanoClient.new (user pass : String) : NanoClient :=
  ⟨some ⟨user, pass⟩, none⟩

/-- client.rs `NanoClient::is_logged_in`: a token is currently held. -/
def NanoClient.is_logged_in (c : NanoClient) : Bool :=
  c.token.isSome

/-- data.rs `LoginResponse`. -/
structure LoginResponse where
  auth_token : String
deriving DecidableEq, Repr

/-- client.rs `NanoClient::login`, with the sign-in request's outcome
supplied by the environment: without credentials it fails fast with
NoCredentials and no request; on a successful response the returned token
replaces the stored one; on a failed request the token is unchanged and the
error propagates. -/
def NanoClient.login (c : NanoClient) (outcome : Except Error LoginResponse) :
    Except Error Unit × NanoClient :=
  match c.creds with
  | none => (.error .NoCredentials, c)
  | some _ =>
    match outcome with
    | .ok res => (.ok (), { c with token := some res.auth_token })
    | .error e => (.error e, c)

/-- client.rs `NanoClient::logout`, with the logout request's outcome
supplied by the environment: the `?` on make_request propagates a failure
before the token is taken, so the token is cleared only after a successful
notification; the current login status is never consulted. -/
def NanoClient.logout (c : NanoClient) (outcome : Except Error Unit) :
    Except Error Unit × NanoClient :=
  match outcome with
  | .error e => (.error e, c)
  | .ok _ => (.ok (), { c with token := none })

/-- The observable trace of one retry_request call: the returned result, how
many times the original request was sent, how many login calls were made, and
the final session state. -/
structure RetryTrace (α : Type) where
  result : Except Error α
  requests : Nat
  logins : Nat
  client : NanoClient

/-- client.rs `NanoClient::retry_request`, with the environment supplying the
outcome of the n-th send of the original request and the outcome of a
sign-in request should one be made.  The request is sent once; only when that
outcome is a SimpleNanoError with the 401 status while a token is held does
the dispatcher call login() exactly once and — if the login succeeded — send
the original request exactly once more, returning the second outcome as-is
(a failed login propagates its own error through the `?` with no resend);
every other first outcome is returned as-is. -/
def NanoClient.retry_request (c : NanoClient) (attempts : Nat → Except Error α)
    (loginOutcome : Except Error LoginResponse) : RetryTrace α :=
  match attempts 0 with
  | .error (.SimpleNanoError code msg) =>
    if code == 401 && c.is_logged_in then
      match c.login loginOutcome with
      | (.ok _, c2) => ⟨attempts 1, 2, 1, c2⟩
      | (.error e, c2) => ⟨.error e, 1, 1, c2⟩
    else ⟨.error (.SimpleNanoError code msg), 1, 0, c⟩
  | r => ⟨r, 1, 0, c⟩

/-! ### Relation-link traversal -/

/-- The fate of a relation-link fetch: either the process aborts on the
cardinality check, or the request for the link's `related` URI is issued
through the retry dispatcher. -/
inductive RelFetch where
| panics (msg : String)
| request (path : String)
deriving DecidableEq, Repr

/-- client.rs `NanoClient::get_all_related`: aborts unless the related URI
ends with the plural suffix, otherwise fetches the URI. -/
def get_all_related (rel : RelationLink) : RelFetch :=
  if !(endsWithChar rel.related 's') then
    .panics "get_all_related can only get many-relation links"
  else .request rel.related

/-- client.rs `NanoClient::get_unique_related`: aborts if the related URI
ends with the plural suffix, otherwise fetches the URI. -/
def get_unique_related (rel : RelationLink) : RelFetch :=
  if endsWithChar rel.related 's' then
    .panics "get_unique_related can only get single-relation links"
  else .request rel.related

/-! ### Concrete wire documents used by the theorems -/

/-- A minimal valid document of a given wire type name and attributes. -/
def docOf (tyName : String) (attrs : Json) : Json :=
  Json.obj [("type", Json.str tyName), ("id", Json.str "7"), ("attributes", attrs)]

def attrsBadge : Json :=
  Json.obj [("active", Json.bool true), ("adheres-to", Json.str "user"),
    ("awarded", Json.str "a"), ("awarded-description", Json.str "ad"),
    ("badge-type", Json.str "participation"), ("description", Json.str "d"),
    ("generic-description", Json.str "g"), ("list-order", Json.num 1),
    ("title", Json.str "t"), ("unawarded", Json.str "u"), ("winner", Json.bool false)]

def attrsChallenge : Json :=
  Json.obj [("default-goal", Json.num 50000), ("ends-at", Json.str "2020-11-30"),
    ("name", Json.str "NaNo"), ("starts-at", Json.str "2020-11-01"),
    ("unit-type", Json.num 0), ("user-id", Json.num 1), ("writing-type", Json.num 0)]

def attrsDailyAggregate : Json :=
  Json.obj [("count", Json.num 1000), ("day", Json.str "2020-11-05"),
    ("project-id", Json.num 2), ("unit-type", Json.num 0)]

def attrsFavoriteAuthor : Json :=
  Json.obj [("name", Json.str "A"), ("user-id", Json.num 1)]

def attrsFavoriteBook : Json :=
  Json.obj [("title", Json.str "B"), ("user-id", Json.num 1)]

def attrsGenre : Json :=
  Json.obj [("name", Json.str "G"), ("user-id", Json.num 1)]

def attrsGroup : Json :=
  Json.obj [("approved-by-id", Json.num 1), ("cancelled-by-id", Json.num 1),
    ("created-at", Json.str "2020-01-01T00:00:00Z"), ("group-type", Json.str "region"),
    ("name", Json.str "N"), ("slug", Json.str "n"),
    ("updated-at", Json.str "2020-01-02T00:00:00Z")]

def attrsGroupExternalLink : Json :=
  Json.obj [("group-id", Json.num 1), ("url", Json.str "https://example.org")]

def attrsLocation : Json :=
  Json.obj [("city", Json.str "C"), ("country", Json.str "X"),
    ("latitude", Json.num 10), ("longitude", Json.num 20), ("name", Json.str "L"),
    ("postal-code", Json.str "12345"), ("state", Json.str "S")]

def attrsNanoMessage : Json :=
  Json.obj [("content", Json.str "hi"), ("created-at", Json.str "2020-01-01T00:00:00Z"),
    ("group-id", Json.num 1), ("official", Json.bool false),
    ("updated-at", Json.str "2020-01-01T00:00:00Z"), ("user-id", Json.num 1)]

def attrsNotification : Json :=
  Json.obj [("action-type", Json.str "NANOMESSAGES"), ("content", Json.str "c"),
    ("created-at", Json.str "2020-01-01T00:00:00Z"),
    ("display-at", Json.str "2020-01-01T00:00:00Z"), ("display-status", Json.num 0),
    ("headline", Json.str "h"), ("updated-at", Json.str "2020-01-01T00:00:00Z"),
    ("user-id", Json.num 1)]

def attrsPage : Json :=
  Json.obj [("body", Json.str "b"), ("url", Json.str "u"), ("headline", Json.str "h"),
    ("content-type", Json.str "Plain Text")]

def attrsPost : Json :=
  Json.obj [("body", Json.str "b"), ("content-type", Json.str "Pep Talk"),
    ("headline", Json.str "h"), ("published", Json.bool true)]

def attrsProject : Json :=
  Json.obj [("created-at", Json.str "2020-01-01T00:00:00Z"), ("privacy", Json.num 2),
    ("slug", Json.str "p"), ("status", Json.str "In Progress"), ("title", Json.str "T"),
    ("unit-type", Json.num 0), ("user-id", Json.num 1), ("writing-type", Json.num 0)]

def attrsProjectSession : Json :=
  Json.obj [("count", Json.num 500), ("unit-type", Json.num 0)]

def attrsStopWatch : Json :=
  Json.obj [("start", Json.str "2020-01-01T00:00:00Z")]

def attrsTimer : Json :=
  Json.obj [("cancelled", Json.bool false), ("duration", Json.num 25),
    ("start", Json.str "2020-01-01T00:00:00Z")]

/-- A full user attributes document.  The flatten buffer always holds the
mandatory stats keys, which forces the three flattened Option settings
groups to `Some`, so a decodable user document must carry all of them. -/
def attrsUser : Json :=
  Json.obj [("admin-level", Json.num 0),
    ("confirmed-at", Json.str "2020-01-01T00:00:00Z"),
    ("created-at", Json.str "2020-01-01T00:00:00Z"), ("halo", Json.bool false),
    ("laurels", Json.num 0), ("name", Json.str "n"),
    ("notifications-viewed-at", Json.str "2020-01-01T00:00:00Z"),
    ("postal-code", Json.null), ("registration-path", Json.str "email"),
    ("setting-session-count-by-session", Json.num 0),
    ("setting-session-more-info", Json.bool false), ("slug", Json.str "u"),
    ("email-blog-posts", Json.bool true), ("email-buddy-requests", Json.bool true),
    ("email-events-in-home-region", Json.bool false),
    ("email-nanomessages-buddies", Json.bool true),
    ("email-nanomessages-hq", Json.bool true), ("email-nanomessages-mls", Json.bool true),
    ("email-nanowrimo-updates", Json.bool false), ("email-newsletter", Json.bool false),
    ("email-writing-reminders", Json.bool true),
    ("notification-buddy-activities", Json.bool true),
    ("notification-buddy-requests", Json.bool true),
    ("notification-events-in-home-region", Json.bool false),
    ("notification-goal-milestones", Json.bool true),
    ("notification-nanomessages-buddies", Json.bool true),
    ("notification-nanomessages-hq", Json.bool true),
    ("notification-nanomessages-mls", Json.bool true),
    ("notification-new-badges", Json.bool true),
    ("notification-sprint-invitation", Json.bool false),
    ("notification-sprint-start", Json.bool false),
    ("notification-writing-reminders", Json.bool true),
    ("privacy-send-nanomessages", Json.num 2), ("privacy-view-buddies", Json.num 1),
    ("privacy-view-profile", Json.num 2), ("privacy-view-projects", Json.num 2),
    ("privacy-view-search", Json.num 0),
    ("privacy-visibility-activity-logs", Json.bool true),
    ("privacy-visibility-buddy-lists", Json.bool true),
    ("privacy-visibility-regions", Json.bool false),
    ("stats-projects", Json.num 1), ("stats-projects-enabled", Json.bool true),
    ("stats-streak", Json.num 0), ("stats-streak-enabled", Json.bool true),
    ("stats-word-count", Json.num 50000), ("stats-word-count-enabled", Json.bool true),
    ("stats-wordiest", Json.num 5000), ("stats-wordiest-enabled", Json.bool true),
    ("stats-writing-pace-enabled", Json.bool true),
    ("stats-years-enabled", Json.bool true), ("time-zone", Json.str "UTC")]

/-- A user attributes document with the stats block but none of the three
settings groups: the buffered stats keys force the email group to `Some`,
whose first field is then missing — the real program rejects this
document. -/
def attrsUserNoGroups : Json :=
  Json.obj [("admin-level", Json.num 0),
    ("confirmed-at", Json.str "2020-01-01T00:00:00Z"),
    ("created-at", Json.str "2020-01-01T00:00:00Z"), ("halo", Json.bool false),
    ("laurels", Json.num 0), ("name", Json.str "n"),
    ("notifications-viewed-at", Json.str "2020-01-01T00:00:00Z"),
    ("postal-code", Json.null), ("registration-path", Json.str "email"),
    ("setting-session-count-by-session", Json.num 0),
    ("setting-session-more-info", Json.bool false), ("slug", Json.str "u"),
    ("stats-projects", Json.num 1), ("stats-projects-enabled", Json.bool true),
    ("stats-streak", Json.num 0), ("stats-streak-enabled", Json.bool true),
    ("stats-word-count", Json.num 50000), ("stats-word-count-enabled", Json.bool true),
    ("stats-wordiest", Json.num 5000), ("stats-wordiest-enabled", Json.bool true),
    ("stats-writing-pace-enabled", Json.bool true),
    ("stats-years-enabled", Json.bool true), ("time-zone", Json.str "UTC")]

def attrsWritingLocation : Json :=
  Json.obj [("name", Json.str "Desk")]

def attrsWritingMethod : Json :=
  Json.obj [("name", Json.str "Laptop")]

def attrsGroupUser : Json :=
  Json.obj [("created-at", Json.str "2020-01-01T00:00:00Z"),
    ("entry-method", Json.str "join"), ("group-id", Json.num 1),
    ("group-type", Json.str "region"), ("invitation-accepted", Json.num 1),
    ("num-unread-messages", Json.num 0), ("primary", Json.num 1),
    ("updated-at", Json.str "2020-01-01T00:00:00Z"), ("user-id", Json.num 1)]

def attrsLocationGroup : Json :=
  Json.obj [("group-id", Json.num 1), ("location-id", Json.num 2),
    ("primary", Json.bool true)]

def attrsProjectChallenge : Json :=
  Json.obj [("challenge-id", Json.num 1), ("current-count", Json.num 100),
    ("ends-at", Json.str "2020-11-30"), ("event-type", Json.num 0),
    ("goal", Json.num 50000), ("name", Json.str "n"), ("project-id", Json.num 2),
    ("starts-at", Json.str "2020-11-01"), ("unit-type", Json.num 0),
    ("user-id", Json.num 1)]

def attrsUserBadge : Json :=
  Json.obj [("badge-id", Json.num 1), ("created-at", Json.str "2020-01-01T00:00:00Z"),
    ("project-challenge-id", Json.num 2), ("user-id", Json.num 3)]

/-- One minimal valid document per kind, tagged with the kind's wire name. -/
def unionDoc : NanoKind → Json
| .Badge => docOf "badges" attrsBadge
| .Challenge => docOf "challenges" attrsChallenge
| .DailyAggregate => docOf "daily-aggregates" attrsDailyAggregate
| .FavoriteAuthor => docOf "favorite-authors" attrsFavoriteAuthor
| .FavoriteBook => docOf "favorite-books" attrsFavoriteBook
| .Genre => docOf "genres" attrsGenre
| .Group => docOf "groups" attrsGroup
| .GroupExternalLink => docOf "group-external-links" attrsGroupExternalLink
| .Location => docOf "locations" attrsLocation
| .NanoMessage => docOf "nanomessages" attrsNanoMessage
| .Notification => docOf "notifications" attrsNotification
| .Page => docOf "pages" attrsPage
| .Post => docOf "posts" attrsPost
| .Project => docOf "projects" attrsProject
| .ProjectSession => docOf "project-sessions" attrsProjectSession
| .StopWatch => docOf "stopwatches" attrsStopWatch
| .Timer => docOf "timers" attrsTimer
| .User => docOf "users" attrsUser
| .WritingLocation => docOf "writing-locations" attrsWritingLocation
| .WritingMethod => docOf "writing-methods" attrsWritingMethod
| .GroupUser => docOf "group-users" attrsGroupUser
| .LocationGroup => docOf "location-groups" attrsLocationGroup
| .ProjectChallenge => docOf "project-challenges" attrsProjectChallenge
| .UserBadge => docOf "user-badges" attrsUserBadge

/-- Whether the generic union decode of `doc` succeeds with the given kind. -/
def decodesToKind (doc : Json) (k : NanoKind) : Bool :=
  match Object.decode "" doc with
  | .ok o => o.kind == k
  | _ => false

/-- The members of a JSON object (empty for any other value). -/
def Json.membersOf : Json → List (String × Json)
| .obj ms => ms
| _ => []

/-! ### Theorems -/

/-- C9: for every RelationLink, `get_all_related` aborts the process exactly
when the link's related URI does not end in the plural suffix and otherwise
issues the collection fetch of that URI; dually, `get_unique_related` aborts
exactly when the URI does end in the suffix and otherwise issues the
singleton fetch; the suffix test on the URI is the sole cardinality check,
as witnessed by the four concrete URI instances. -/
theorem relation_link_suffix_heuristic :
    (∀ rel : RelationLink,
      get_all_related rel = RelFetch.panics "get_all_related can only get many-relation links"
        ↔ endsWithChar rel.related 's' = false) ∧
    (∀ rel : RelationLink,
      get_all_related rel = RelFetch.request rel.related
        ↔ endsWithChar rel.related 's' = true) ∧
    (∀ rel : RelationLink,
      get_unique_related rel = RelFetch.panics "get_unique_related can only get single-relation links"
        ↔ endsWithChar rel.related 's' = true) ∧
    (∀ rel : RelationLink,
      get_unique_related rel = RelFetch.request rel.related
        ↔ endsWithChar rel.related 's' = false) ∧
    get_all_related ⟨"/users/1/relationships/projects", "/users/1/projects"⟩ =
      RelFetch.request "/users/1/projects" ∧
    get_unique_related ⟨"/projects/5/relationships/user", "/projects/5/user"⟩ =
      RelFetch.request "/projects/5/user" ∧
    get_all_related ⟨"/projects/5/relationships/user", "/projects/5/user"⟩ =
      RelFetch.panics "get_all_related can only get many-relation links" ∧
    get_unique_related ⟨"/users/1/relationships/projects", "/users/1/projects"⟩ =
      RelFetch.panics "get_unique_related can only get single-relation links" := by
  refine ⟨?_, ?_, ?_, ?_, ?_, ?_, ?_, ?_⟩
  · intro rel
    by_cases h : endsWithChar rel.related 's' <;> simp [get_all_related, h]
  · intro rel
    by_cases h : endsWithChar rel.related 's' <;> simp [get_all_related, h]
  · intro rel
    by_cases h : endsWithChar rel.related 's' <;> simp [get_unique_related, h]
  · intro rel
    by_cases h : endsWithChar rel.related 's' <;> simp [get_unique_related, h]
  · rfl
  · rfl
  · rfl
  · rfl

/-- C10: serializing the included-references map, a kind whose list has
exactly one element is emitted under the singular/unique wire name with the
single reference wrapped in a `data` object, while a list of any other
length — the empty list included — is emitted under the plural wire name as
the bare array of references; the map serializes entrywise. -/
theorem rel_includes_serialization_shape :
    (∀ (k : NanoKind) (r : ObjectRef),
      se_rel_includes [(k, [r])] = [(k.api_unique_name, Json.obj [("data", r.toJson)])]) ∧
    (∀ (k : NanoKind) (refs : List ObjectRef), refs.length ≠ 1 →
      se_rel_includes [(k, refs)] = [(k.api_name, Json.arr (refs.map ObjectRef.toJson))]) ∧
    (∀ (m1 m2 : List (NanoKind × List ObjectRef)),
      se_rel_includes (m1 ++ m2) = se_rel_includes m1 ++ se_rel_includes m2) ∧
    se_rel_includes
        [(.Project, [⟨4, .Project⟩]), (.Badge, []), (.Genre, [⟨1, .Genre⟩, ⟨2, .Genre⟩])] =
      [("project", Json.obj [("data",
          Json.obj [("id", Json.str "4"), ("type", Json.str "projects")])]),
       ("badges", Json.arr []),
       ("genres", Json.arr
          [Json.obj [("id", Json.str "1"), ("type", Json.str "genres")],
           Json.obj [("id", Json.str "2"), ("type", Json.str "genres")]])] := by
  refine ⟨fun k r => rfl, ?_, ?_, rfl⟩
  · intro k refs h
    match refs with
    | [] => rfl
    | [r] => exact absurd rfl h
    | r1 :: r2 :: rest => rfl
  · intro m1 m2
    simp [se_rel_includes]

/-- C10 witness: the empty reference list is emitted under the plural name
as a bare empty array. -/
theorem rel_includes_serialization_shape_witness :
    se_rel_includes [(NanoKind.Badge, ([] : List ObjectRef))] = [("badges", Json.arr [])] :=
  rel_includes_serialization_shape.2.1 NanoKind.Badge [] (by decide)

/-- C5: `decode (encode v) = v` holds for every defined variant of every
strict wire-coded enumeration except `WritingType::Other`; strict enums
reject wire values outside their defined set; the open-ended `Where` and
`How` decode any out-of-range value to `Other(raw)` preserving the raw
value.  The final conjuncts isolate the WritingType bug the code has: the
encoder maps `Other` to 8, which its own decoder rejects (only 6 decodes to
`Other`), so the round trip the claim asserts fails at exactly that
variant. -/
theorem enum_wire_roundtrip :
    (∀ v : PrivacySetting, PrivacySetting.tryFrom v.toWire = .ok v) ∧
    (∀ v : ProjectStatus, ProjectStatus.tryFrom v.toWire = .ok v) ∧
    (∀ v : EventType, EventType.tryFrom v.toWire = .ok v) ∧
    (∀ v : GroupType, GroupType.tryFrom v.toWire = .ok v) ∧
    (∀ v : EntryMethod, EntryMethod.tryFrom v.toWire = .ok v) ∧
    (∀ v : AdminLevel, AdminLevel.tryFrom v.toWire = .ok v) ∧
    (∀ v : ActionType, ActionType.tryFrom v.toWire = .ok v) ∧
    (∀ v : DisplayStatus, DisplayStatus.tryFrom v.toWire = .ok v) ∧
    (∀ v : ContentType, ContentType.tryFrom v.toWire = .ok v) ∧
    (∀ v : RegistrationPath, RegistrationPath.tryFrom v.toWire = .ok v) ∧
    (∀ v : BadgeType, BadgeType.tryFrom v.toWire = .ok v) ∧
    (∀ v : JoiningRule, JoiningRule.tryFrom v.toWire = .ok v) ∧
    (∀ v : UnitType, UnitType.tryFrom v.toWire = .ok v) ∧
    (∀ v : AdheresTo, AdheresTo.tryFrom v.toWire = .ok v) ∧
    (∀ v : Feeling, Feeling.tryFrom v.toWire = .ok v) ∧
    (∀ v : InvitationStatus, InvitationStatus.tryFrom v.toWire = .ok v) ∧
    (∀ n : Nat, PrivacySetting.tryFrom (n + 3) =
      .error "Cannot convert u8 into PrivacySetting") ∧
    (∀ n : Nat, EventType.tryFrom (n + 3) = .error "Cannot convert u8 into EventType") ∧
    (∀ n : Nat, Feeling.tryFrom (n + 6) = .error "Cannot convert u8 into Feeling") ∧
    Feeling.tryFrom 0 = .error "Cannot convert u8 into Feeling" ∧
    ProjectStatus.tryFrom "unknown" = .error "Cannot convert &str into ProjectStatus" ∧
    InvitationStatus.tryFrom 5 = .error "Cannot convert i8 into InvitationStatus" ∧
    (∀ n : Nat, Where.ofWire (n + 4) = .Other (n + 4)) ∧
    (∀ n : Nat, How.ofWire (n + 4) = .Other (n + 4)) ∧
    WritingType.tryFrom (WritingType.toWire .Novel) = .ok .Novel ∧
    WritingType.tryFrom (WritingType.toWire .ShortStories) = .ok .ShortStories ∧
    WritingType.tryFrom (WritingType.toWire .Memoir) = .ok .Memoir ∧
    WritingType.tryFrom (WritingType.toWire .Script) = .ok .Script ∧
    WritingType.tryFrom (WritingType.toWire .Nonfiction) = .ok .Nonfiction ∧
    WritingType.tryFrom (WritingType.toWire .Poetry) = .ok .Poetry ∧
    WritingType.toWire .Other = 8 ∧
    WritingType.tryFrom 8 = .error "Cannot convert u8 into WritingType" ∧
    WritingType.tryFrom 6 = .ok .Other ∧
    WritingType.tryFrom (WritingType.toWire .Other) =
      .error "Cannot convert u8 into WritingType" :=
  ⟨fun v => by cases v <;> rfl, fun v => by cases v <;> rfl, fun v => by cases v <;> rfl,
   fun v => by cases v <;> rfl, fun v => by cases v <;> rfl, fun v => by cases v <;> rfl,
   fun v => by cases v <;> rfl, fun v => by cases v <;> rfl, fun v => by cases v <;> rfl,
   fun v => by cases v <;> rfl, fun v => by cases v <;> rfl, fun v => by cases v <;> rfl,
   fun v => by cases v <;> rfl, fun v => by cases v <;> rfl, fun v => by cases v <;> rfl,
   fun v => by cases v <;> rfl,
   fun n => rfl, fun n => rfl, fun n => rfl, rfl, rfl, rfl,
   fun n => rfl, fun n => rfl,
   rfl, rfl, rfl, rfl, rfl, rfl, rfl, rfl, rfl, rfl⟩

/-- A client holding credentials and a token. -/
def loggedInClient : NanoClient := ⟨some ⟨"user", "hunter2"⟩, some "tok"⟩

/-- The [401, 200] outcome simulation for the original request. -/
def attempts_401_200 : Nat → Except Error Nat := fun n =>
  if n = 0 then .error (.SimpleNanoError 401 "Unauthorized") else .ok 200

/-- The [401, 401] outcome simulation for the original request. -/
def attempts_401_401 : Nat → Except Error Nat := fun n =>
  if n = 0 then .error (.SimpleNanoError 401 "Unauthorized")
  else .error (.SimpleNanoError 401 "Still unauthorized")

/-- C1: when the first attempt yields a 401 error and the session holds a
token (with the credentials that every token-holding session has), the
dispatcher performs exactly one login and resends the original request
exactly once, returning the second outcome as-is; without a token the 401 is
returned directly with no login.  The [401, 200] simulation returns the 200
result after one login, the [401, 401] simulation returns the second
401-derived error with no third attempt, and the anonymous client returns
immediately. -/
theorem retry_dispatcher_single_relogin
    (c : NanoClient) (attempts : Nat → Except Error Nat) (lr : LoginResponse)
    (msg tok : String) (cr : Creds)
    (hcreds : c.creds = some cr) (htok : c.token = some tok)
    (h401 : attempts 0 = Except.error (Error.SimpleNanoError 401 msg)) :
    ((c.retry_request attempts (.ok lr)).result = attempts 1 ∧
     (c.retry_request attempts (.ok lr)).logins = 1 ∧
     (c.retry_request attempts (.ok lr)).requests = 2 ∧
     (c.retry_request attempts (.ok lr)).client.token = some lr.auth_token) ∧
    (∀ c' : NanoClient, c'.token = none →
      (c'.retry_request attempts (.ok lr)).result = .error (.SimpleNanoError 401 msg) ∧
      (c'.retry_request attempts (.ok lr)).logins = 0 ∧
      (c'.retry_request attempts (.ok lr)).requests = 1) ∧
    ((loggedInClient.retry_request attempts_401_200 (.ok lr)).result = .ok 200 ∧
     (loggedInClient.retry_request attempts_401_200 (.ok lr)).logins = 1 ∧
     (loggedInClient.retry_request attempts_401_200 (.ok lr)).requests = 2) ∧
    ((loggedInClient.retry_request attempts_401_401 (.ok lr)).result =
        .error (.SimpleNanoError 401 "Still unauthorized") ∧
     (loggedInClient.retry_request attempts_401_401 (.ok lr)).logins = 1 ∧
     (loggedInClient.retry_request attempts_401_401 (.ok lr)).requests = 2) ∧
    ((NanoClient.new_anon.retry_request attempts (.ok lr)).result =
        .error (.SimpleNanoError 401 msg) ∧
     (NanoClient.new_anon.retry_request attempts (.ok lr)).logins = 0 ∧
     (NanoClient.new_anon.retry_request attempts (.ok lr)).requests = 1) := by
  refine ⟨?_, ?_, ⟨rfl, rfl, rfl⟩, ⟨rfl, rfl, rfl⟩, ?_⟩
  · simp [NanoClient.retry_request, h401, NanoClient.is_logged_in, htok,
      NanoClient.login, hcreds]
  · intro c' hc'
    simp [NanoClient.retry_request, h401, NanoClient.is_logged_in, hc']
  · simp [NanoClient.retry_request, h401, NanoClient.is_logged_in, NanoClient.new_anon]

/-- C1 witness: the [401, 200] simulation on the logged-in client returns
the 200 result. -/
theorem retry_dispatcher_single_relogin_witness :
    (loggedInClient.retry_request attempts_401_200 (.ok ⟨"tok2"⟩)).result = .ok 200 :=
  ((retry_dispatcher_single_relogin loggedInClient attempts_401_200 ⟨"tok2"⟩
      "Unauthorized" "tok" ⟨"user", "hunter2"⟩ rfl rfl rfl).2.2.1).1

/-- C4 counterexample: when the best-effort server notification of logout
fails, the stored token is NOT cleared — the `?` propagates the error before
`take()` runs — refuting the claim that logout unconditionally clears the
token even when the notification fails. -/
theorem logout_failure_keeps_token_cx :
    loggedInClient.logout (.error (.ReqwestError "connection reset")) =
      (.error (.ReqwestError "connection reset"), loggedInClient) ∧
    loggedInClient.token = some "tok" :=
  ⟨rfl, rfl⟩

/-- C4 (amended): login without credentials fails fast with NoCredentials
and leaves the state unchanged; with credentials, a successful login stores
the returned token and a failed one leaves the token unchanged and
propagates the error; logout clears the token only after a successful server
notification — on a failed notification the error propagates and the token
is unchanged — and it never consults the login status: its result is the
same for every session state. -/
theorem login_logout_state_machine
    (c : NanoClient) (out : Except Error Unit) (lr : LoginResponse)
    (e : Error) (cr : Creds) :
    (c.creds = none →
      c.login (.error e) = (.error .NoCredentials, c) ∧
      c.login (.ok lr) = (.error .NoCredentials, c)) ∧
    (c.creds = some cr →
      c.login (.ok lr) = (.ok (), { c with token := some lr.auth_token })) ∧
    (c.creds = some cr → c.login (.error e) = (.error e, c)) ∧
    c.logout (.ok ()) = (.ok (), { c with token := none }) ∧
    c.logout (.error e) = (.error e, c) ∧
    (∀ c' : NanoClient, (c.logout out).1 = (c'.logout out).1) := by
  refine ⟨?_, ?_, ?_, rfl, rfl, ?_⟩
  · intro h
    exact ⟨by simp [NanoClient.login, h], by simp [NanoClient.login, h]⟩
  · intro h
    simp [NanoClient.login, h]
  · intro h
    simp [NanoClient.login, h]
  · intro c'
    cases out <;> rfl

/-- C4 witness: a successful login on a freshly constructed client stores
the returned token. -/
theorem login_logout_state_machine_witness :
    (NanoClient.new "user" "hunter2").login (.ok ⟨"tok"⟩) =
      (.ok (), ⟨some ⟨"user", "hunter2"⟩, some "tok"⟩) :=
  (login_logout_state_machine (NanoClient.new "user" "hunter2") (.ok ())
    ⟨"tok"⟩ .NoCredentials ⟨"user", "hunter2"⟩).2.1 rfl

/-- The typed decoder the response theorems use: an
`ItemResponse<WritingMethodObject>`, path-tracked from the root. -/
def wmDecoder : Json → DecOutcome (ItemResponse WritingMethodObject) :=
  deItemResponse 8 (ObjStruct.decode WritingMethodData.decode) ""

/-- A valid single-item body for that decoder. -/
def wmItemDoc : Json :=
  Json.obj [("data", docOf "writing-methods" attrsWritingMethod)]

/-- The value `wmItemDoc` decodes to. -/
def wmExpected : ItemResponse WritingMethodObject :=
  ⟨⟨7, none, none, ⟨"Laptop"⟩⟩, none, none⟩

/-- A body whose data.attributes.name has the wrong type. -/
def wmBadDoc : Json :=
  Json.obj [("data", Json.obj [("type", Json.str "writing-methods"),
    ("id", Json.str "7"), ("attributes", Json.obj [("name", Json.num 3)])])]

/-- One server-reported error-list entry as the wire carries it
(numeric-as-string code and status). -/
def errorEntryDoc : Json :=
  Json.obj [("code", Json.str "1"), ("detail", Json.str "D"),
    ("status", Json.str "404"), ("title", Json.str "T")]

/-- C2: response classification follows a fixed precedence.  A 500 or 404
status maps to its fixed message for every body and every decoder — in
particular a 500 whose body is a perfectly decodable `data` document still
yields the fixed server-error message.  For any other status, a top-level
`error`/`errors` key is decoded as the NanoError union and returned, for
every decoder (so before any typed decode).  Otherwise the typed decode
decides the outcome, a failure surfacing as ResponseDecoding with the
decoder's path and cause — concretely, the mistyped name yields the exact
path data.attributes.name. -/
theorem make_request_error_precedence
    (status : Nat) (h500 : status ≠ 500) (h404 : status ≠ 404)
    (d : Json → DecOutcome (ItemResponse WritingMethodObject))
    (m : String) (v : Json) (a : ItemResponse WritingMethodObject) (pth msg : String) :
    (∀ (body : Option Json) (d' : Json → DecOutcome (ItemResponse WritingMethodObject)),
      make_request_classify 500 body d' = .err (.SimpleNanoError 500 "Internal Server Error") ∧
      make_request_classify 404 body d' = .err (.SimpleNanoError 404 "Page Not Found")) ∧
    (wmDecoder wmItemDoc = .ok wmExpected ∧
     make_request_classify 500 (some wmItemDoc) wmDecoder =
       .err (.SimpleNanoError 500 "Internal Server Error")) ∧
    (make_request_classify status (some (Json.obj [("error", Json.str m)])) d =
      .err (.SimpleNanoError status m)) ∧
    (make_request_classify status (some (Json.obj [("errors", Json.arr [errorEntryDoc])])) d =
      .err (.NanoErrors [⟨1, "D", 404, "T"⟩])) ∧
    (hasErrorKey v = false →
      (d v = .ok a → make_request_classify status (some v) d = .ok a) ∧
      (d v = .fail pth msg →
        make_request_classify status (some v) d = .err (.ResponseDecoding pth msg))) ∧
    (make_request_classify status (some wmBadDoc) wmDecoder =
      .err (.ResponseDecoding "data.attributes.name" "invalid type: expected a string")) := by
  refine ⟨fun body d' => ⟨rfl, rfl⟩, ⟨rfl, rfl⟩, ?_, ?_, ?_, ?_⟩
  · unfold make_request_classify
    rw [if_neg h500, if_neg h404]
    rfl
  · unfold make_request_classify
    rw [if_neg h500, if_neg h404]
    rfl
  · intro hv
    constructor
    · intro hd
      unfold make_request_classify
      rw [if_neg h500, if_neg h404]
      simp [hv, hd]
    · intro hd
      unfold make_request_classify
      rw [if_neg h500, if_neg h404]
      simp [hv, hd]
  · unfold make_request_classify
    rw [if_neg h500, if_neg h404]
    rfl

/-- C2 witness: a 200 body carrying an `error` key surfaces as the simple
server error before the typed decoder runs. -/
theorem make_request_error_precedence_witness :
    make_request_classify 200 (some (Json.obj [("error", Json.str "bad thing")])) wmDecoder =
      .err (.SimpleNanoError 200 "bad thing") :=
  (make_request_error_precedence 200 (by decide) (by decide) wmDecoder "bad thing"
    Json.null wmExpected "" "").2.2.1

/-- C3 counterexample: a document whose wire `type` names writing-locations
decodes successfully as `ItemResponse<WritingMethodObject>` — the concrete
typed decode ignores the discriminant entirely, so there is no type-mismatch
error and the foreign-kind document is silently coerced. -/
theorem typed_decode_ignores_type_tag_cx :
    deItemResponse 8 (ObjStruct.decode WritingMethodData.decode) ""
        (Json.obj [("data", docOf "writing-locations" attrsWritingLocation)]) =
      .ok ⟨⟨7, none, none, ⟨"Desk"⟩⟩, none, none⟩ ∧
    jlookup (Json.membersOf (docOf "writing-locations" attrsWritingLocation)) "type" =
      some (Json.str "writing-locations") ∧
    NanoKind.WritingMethod.api_name = "writing-methods" :=
  ⟨rfl, rfl, rfl⟩

/-- C3 (amended): a concrete-typed decode ignores the wire discriminant —
for every `type` string the same document decodes to the same value, and a
foreign-kind document fails only when its attributes miss the expected
schema (a schema error, not a type-mismatch error); the generic Object union
decodes successfully for every one of the 24 defined kinds' wire names,
producing the matching kind, and rejects an unknown wire name. -/
theorem object_union_decode :
    (deItemResponse 8 (ObjStruct.decode WritingMethodData.decode) ""
        (Json.obj [("data", docOf "writing-methods" attrsWritingMethod)]) =
      .ok ⟨⟨7, none, none, ⟨"Laptop"⟩⟩, none, none⟩) ∧
    (∀ ty : String, ObjStruct.decode WritingMethodData.decode "" (docOf ty attrsWritingMethod) =
      .ok ⟨7, none, none, ⟨"Laptop"⟩⟩) ∧
    (ObjStruct.decode WritingMethodData.decode "" (docOf "badges" attrsBadge) =
      .fail "attributes" "missing field name") ∧
    (NanoKind.all.all (fun k => decodesToKind (unionDoc k) k) = true) ∧
    (Object.decode "" (docOf "bogus-things" attrsWritingMethod) =
      .fail "." "unknown variant bogus-things") :=
  ⟨rfl, fun ty => rfl, rfl, by rfl, rfl⟩

/-- C7 counterexample: a location object whose present `postal-code` value
does not parse as a number decodes successfully, with the unparseable value
silently replaced by None — refuting the claim that such a decode fails. -/
theorem opt_str_num_silent_none_cx :
    LocationData.decode "" (Json.obj [("city", Json.str "C"), ("country", Json.str "X"),
        ("latitude", Json.num 10), ("longitude", Json.num 20), ("name", Json.str "L"),
        ("postal-code", Json.str "ABC123"), ("state", Json.str "S")]) =
      .ok ⟨"C", "X", none, none, 10, 20, none, none, "L", none, none, "S",
           none, none, none⟩ :=
  rfl

/-- C7 (amended): the optional numeric-as-string codec de_opt_str_num never
fails — a parseable string yields the number, while any other present value
(unparseable string or non-string) silently becomes None, on the user object
just as on the location object; every other field's decode error still
propagates and fails the whole decode, a mistyped location city and a user
document missing a flattened settings group included. -/
theorem decode_error_propagation (p : String) (v : Json) :
    (∃ o, de_opt_str_num p v = .ok o) ∧
    de_opt_str_num p (Json.str "42") = .ok (some 42) ∧
    de_opt_str_num p (Json.str "not a number") = .ok none ∧
    de_opt_str_num p (Json.num 42) = .ok none ∧
    (∀ n, de_str_num p v = .ok n → de_opt_str_num p v = .ok (some n)) ∧
    ((match UserData.decode "" (Json.obj (("postal-code", Json.str "XYZ") ::
        (Json.membersOf attrsUser).filter (fun kv => kv.1 ≠ "postal-code"))) with
      | .ok u => u.postal_code == none
      | _ => false) = true) ∧
    (LocationData.decode "" (Json.obj [("city", Json.num 3), ("country", Json.str "X"),
        ("latitude", Json.num 10), ("longitude", Json.num 20), ("name", Json.str "L"),
        ("postal-code", Json.str "12345"), ("state", Json.str "S")]) =
      .fail "city" "invalid type: expected a string") ∧
    (UserData.decode "" attrsUserNoGroups =
      .fail "." "missing field email-blog-posts") := by
  refine ⟨?_, rfl, rfl, rfl, ?_, by rfl, rfl, by rfl⟩
  · unfold de_opt_str_num
    cases de_str_num p v with
    | ok n => exact ⟨some n, rfl⟩
    | fail a b => exact ⟨none, rfl⟩
    | panics a => exact ⟨none, rfl⟩
  · intro n h
    unfold de_opt_str_num
    rw [h]

/-- C7 witness: the parseable string still yields its number through the
optional codec. -/
theorem decode_error_propagation_witness :
    de_opt_str_num "postal-code" (Json.str "42") = .ok (some 42) :=
  (decode_error_propagation "postal-code" (Json.str "42")).2.2.2.2.1 42 rfl

/-- C8 counterexample: re-encoding a resource object with the nonzero id 42
emits the bare JSON number 42, not the JSON string requested by the claim
(the macro's id field has no serialize_with, only skip_serializing_if). -/
theorem object_id_encodes_as_number_cx :
    jlookup (Json.membersOf
        (ObjStruct.toJson WritingMethodData.toJson ⟨42, none, none, ⟨"Laptop"⟩⟩)) "id" =
      some (Json.num 42) ∧
    some (Json.num 42) ≠ some (Json.str "42") :=
  ⟨rfl, fun h => by injection h with h2; exact Json.noConfusion h2⟩

/-- C8 (amended): encoding any resource object with the sentinel id 0 omits
the id member entirely, and a nonzero id is emitted as a bare JSON number;
decoding a resource id accepts only numeric strings ("42" decodes to 42, the
bare number 42 is rejected); the ObjectRef id, by contrast, round-trips
through the numeric-as-string codec: 42 encodes to the JSON string "42" and
that document decodes back to 42. -/
theorem id_sentinel_and_codec {δ : Type} (se : δ → Json) (o : ObjStruct δ) (p : String) :
    (o.id = 0 → jlookup (Json.membersOf (ObjStruct.toJson se o)) "id" = none) ∧
    (o.id ≠ 0 →
      jlookup (Json.membersOf (ObjStruct.toJson se o)) "id" = some (Json.num (o.id : Int))) ∧
    de_str_num p (Json.str "42") = .ok 42 ∧
    de_str_num p (Json.num 42) = .fail (renderPath p) "invalid type: expected a string" ∧
    ObjectRef.toJson ⟨42, .User⟩ =
      Json.obj [("id", Json.str "42"), ("type", Json.str "users")] ∧
    ObjectRef.decode "" (ObjectRef.toJson ⟨42, .User⟩) = .ok ⟨42, .User⟩ := by
  obtain ⟨i, r, l, a⟩ := o
  refine ⟨?_, ?_, rfl, rfl, rfl, rfl⟩
  · intro h
    subst h
    cases r <;> cases l <;> rfl
  · intro h
    simp only [ObjStruct.toJson, Json.membersOf, if_neg h]
    rfl

/-- C8 witness: a writing-method object with the sentinel id has no id
member in its outbound body. -/
theorem id_sentinel_and_codec_witness :
    jlookup (Json.membersOf
        (ObjStruct.toJson WritingMethodData.toJson ⟨0, none, none, ⟨"Laptop"⟩⟩)) "id" =
      none :=
  (id_sentinel_and_codec WritingMethodData.toJson ⟨0, none, none, ⟨"Laptop"⟩⟩ "").1 rfl

/-- Every kind is in the catalog. -/
lemma nanokind_mem_all (k : NanoKind) : k ∈ NanoKind.all := by
  cases k <;> simp [NanoKind.all]

/-- Every key of the from_name lookup table is a registered wire name. -/
lemma table_mem_name {kv : String × NanoKind}
    (hkv : kv ∈ NanoKind.all.map (fun k => (k.api_name, k)) ++
           NanoKind.all.map (fun k => (k.api_unique_name, k))) :
    kv.1 ∈ NanoKind.wireNames := by
  unfold NanoKind.wireNames
  simp only [List.mem_append, List.mem_map] at hkv ⊢
  rcases hkv with ⟨k', hk', rfl⟩ | ⟨k', hk', rfl⟩
  · exact Or.inl ⟨k', hk', rfl⟩
  · exact Or.inr ⟨k', hk', rfl⟩

/-- A successful from_name means the queried string is a registered wire
name. -/
lemma from_name_ok_mem {s : String} {k : NanoKind}
    (h : NanoKind.from_name s = .ok k) : s ∈ NanoKind.wireNames := by
  unfold NanoKind.from_name at h
  cases hfind : (NanoKind.all.map (fun k => (k.api_name, k)) ++
      NanoKind.all.map (fun k => (k.api_unique_name, k))).find? (fun kv => kv.1 == s) with
  | none => rw [hfind] at h; exact absurd h (by simp)
  | some kv =>
    have hp := @List.find?_some (String × NanoKind) (fun kv => kv.1 == s) kv _ hfind
    have hp' : (kv.1 == s) = true := hp
    have hs : kv.1 = s := eq_of_beq hp'
    have hmem := List.mem_of_find?_eq_some hfind
    rw [← hs]
    exact table_mem_name hmem

/-- An unregistered string makes from_name fail with its error message. -/
lemma from_name_not_mem {s : String} (h : s ∉ NanoKind.wireNames) :
    NanoKind.from_name s = .error ("Invalid NanoKind name: " ++ s) := by
  unfold NanoKind.from_name
  rw [List.find?_eq_none.mpr]
  intro kv hkv hbeq
  exact h (eq_of_beq hbeq ▸ table_mem_name hkv)

/-- C6 counterexample: deserializing a relationships-include map whose key
is not a recognized wire name (and whose `data` is present) aborts the
process through `expect`, instead of returning the decode error the claim
asserts. -/
theorem rel_includes_unknown_key_panics_cx :
    de_rel_includes "" [("bogus", Json.obj [("data",
        Json.arr [Json.obj [("id", Json.str "1"), ("type", Json.str "users")]])])] =
      .panics "unwrap de_rel_includes key" :=
  rfl

/-- C6 (amended): an unrecognized wire name is never silently defaulted, but
the failure mode differs per decode path.  On the ObjectRef `type`
discriminant (de_nanokind) it is a decode error, and a successful decode can
only ever return what from_name resolves — which succeeds exactly on
registered wire names and errors on every other string.  On the
relationships-include map and the relation-link map, an unrecognized key
aborts the process through `expect` — except that an include entry whose
`data` is absent is dropped before its key is resolved. -/
theorem nanokind_unknown_name_handling (p s : String) (k : NanoKind) :
    de_nanokind "data.type" (Json.str "bogus") =
      .fail "data.type" "Invalid NanoKind name: bogus" ∧
    (de_nanokind p (Json.str s) = .ok k → NanoKind.from_name s = .ok k) ∧
    (NanoKind.from_name s = .ok k → s ∈ NanoKind.wireNames) ∧
    (s ∉ NanoKind.wireNames →
      NanoKind.from_name s = .error ("Invalid NanoKind name: " ++ s)) ∧
    NanoKind.from_name "users" = .ok .User ∧
    NanoKind.from_name "user" = .ok .User ∧
    de_relation "" [("bogus", Json.obj [("links",
        Json.obj [("self", Json.str "/a"), ("related", Json.str "/b")])])] =
      .panics "unwrap de_relation name" ∧
    de_rel_includes "" [("bogus", Json.obj [("links",
        Json.obj [("self", Json.str "/a"), ("related", Json.str "/b")])])] = .ok [] ∧
    de_rel_includes "" [("user", Json.obj [("data", Json.arr
        [Json.obj [("id", Json.str "3"), ("type", Json.str "users")]])])] =
      .ok [(.User, [⟨3, .User⟩])] := by
  refine ⟨rfl, ?_, fun h => from_name_ok_mem h, fun h => from_name_not_mem h,
    rfl, rfl, rfl, rfl, rfl⟩
  · intro h
    have h' : (match NanoKind.from_name s with
      | .ok k0 => (DecOutcome.ok k0 : DecOutcome NanoKind)
      | .error e => dfail p e) = DecOutcome.ok k := h
    cases heq : NanoKind.from_name s with
    | ok k' =>
      rw [heq] at h'
      simp only [DecOutcome.ok.injEq] at h'
      rw [h']
    | error e =>
      rw [heq] at h'
      exact absurd h' (by simp [dfail])

/-- C6 witness: a name outside the registry resolves to the from_name
error. -/
theorem nanokind_unknown_name_handling_witness :
    NanoKind.from_name "bogus-things" = .error "Invalid NanoKind name: bogus-things" :=
  (nanokind_unknown_name_handling "" "bogus-things" .User).2.2.2.1 (by decide)

end Nano
